import Mathlib

/-!
# ITUSB2 Rev. 0 configuration program (`itusb2-r0-conf.c`)

A shallow embedding of the provisioning program for the CP2130 bridge of the
ITUSB2 USB test switch, and proofs of its protocol properties.

Modelling conventions

* The USB transport is a parameter.  `libusb_control_transfer` is answered by a
  `Transport`: a function of everything transferred so far and of the present
  request, giving the `int` the call returns and the bytes the caller's buffer
  holds once the call is over.  Every theorem quantifies over all transports,
  so any pattern of successes, short counts and error codes is covered.
* The global `err_level`, the transfers issued, the two output streams and the
  session-management calls are fields of an explicit `State` that every
  function of the program transforms.
* `int` is `Int`, bytes are `Nat`.  The source compares the `int` result of a
  transfer with a `sizeof` (a `size_t`); for every value an `int` can hold
  the unsigned conversion neither creates nor destroys an equality with a small
  size, so the comparison is the one on `Int`.
-/

namespace Itusb2Conf

/-! ## Constants -/

/-- `EXIT_SUCCESS` of `<stdlib.h>`. -/
abbrev EXIT_SUCCESS : Int := 0

/-- `EXIT_FAILURE` of `<stdlib.h>`. -/
abbrev EXIT_FAILURE : Int := 1

/-- Exit status value to indicate a command usage error. -/
abbrev EXIT_USERERR : Int := 2

/-- Transfer timeout in milliseconds. -/
abbrev TR_TIMEOUT : Nat := 100

/-! ## Data model -/

/-- The arguments of one `libusb_control_transfer` call.  `data` holds the
bytes the host sends; it is empty for a device-to-host transfer (whose buffer
is only written) and for a `NULL` buffer. -/
structure ControlRequest where
  bmRequestType : Nat
  bRequest : Nat
  wValue : Nat
  wIndex : Nat
  data : List Nat
  wLength : Nat
  timeout : Nat
deriving DecidableEq, Repr

/-- What one `libusb_control_transfer` call yields: the returned `int` and the
content of the caller's buffer afterwards (`buf i` is the byte at offset `i`;
it matters for the device-to-host transfer only, whose buffer the program
leaves uninitialised before the call). -/
structure Outcome where
  ret : Int
  buf : Nat → Nat

/-- One issued transfer, as recorded in the run: the request and the value the
call returned. -/
structure Xfer where
  req : ControlRequest
  ret : Int
deriving DecidableEq, Repr

/-- The transport capability: the answer to a request, given the transfers
already made on the handle. -/
abbrev Transport := List Xfer → ControlRequest → Outcome

/-- Session-management calls of libusb made by `main`. -/
inductive SessionCall where
  | init
  | open_device
  | kernel_driver_active
  | detach_kernel_driver
  | claim_interface
  | release_interface
  | attach_kernel_driver
  | close
  | exit
deriving DecidableEq, Repr

/-- The observable state of a run: the global `err_level`, the control
transfers issued so far (oldest first), both output streams and the session
calls made. -/
structure State where
  err_level : Int
  trace : List Xfer
  stdout : List String
  stderr : List String
  session : List SessionCall

/-- A C array `unsigned char b[size] = { init }`: `size` is what `sizeof`
yields, and the initialisers are zero-filled up to the declared size. -/
structure CBuf where
  size : Nat
  bytes : List Nat
deriving DecidableEq, Repr

/-- The array declared with `n` elements and the given initialisers. -/
def cArray (n : Nat) (init : List Nat) : CBuf :=
  ⟨n, init ++ List.replicate (n - init.length) 0⟩

/-- Conversion of a `char` (or `int`) value to `unsigned char`. -/
def toUChar (c : Int) : Nat := (c % 256).toNat

/-- Conversion of an `int` to `char` (signed, as on the Debian targets the
program is written for).  An unsigned `char` would give `c % 256`; both agree
on which values compare equal to a given ASCII character. -/
def toChar (c : Int) : Int := (c + 128) % 256 - 128

/-! ## Primitive effects -/

/-- The call `libusb_control_transfer(devhandle, ...)`: asks the transport and records the
transfer. -/
def libusb_control_transfer (T : Transport) (req : ControlRequest) (s : State) :
    Outcome × State :=
  let o := T s.trace req
  (o, { s with trace := s.trace ++ [⟨req, o.ret⟩] })

/-- The call `fprintf(stderr, msg)`. -/
def fprintf_stderr (msg : String) (s : State) : State :=
  { s with stderr := s.stderr ++ [msg] }

/-- The call `printf(msg)`. -/
def printf (msg : String) (s : State) : State :=
  { s with stdout := s.stdout ++ [msg] }

/-- A session-management call, recorded. -/
def session_call (c : SessionCall) (s : State) : State :=
  { s with session := s.session ++ [c] }

/-! ## The operations -/

/-- Checks if the OTP ROM of the CP2130 is blank. -/
def is_otp_blank (T : Transport) (s : State) : Bool × State :=
  let (o, s1) := libusb_control_transfer T ⟨0xC0, 0x6E, 0x0000, 0x0000, [], 2, TR_TIMEOUT⟩ s
  let s2 :=
    if o.ret ≠ 2 then
      { fprintf_stderr "Error: Failed control transfer (0xC0, 0x6E).\n" s1 with
        err_level := EXIT_FAILURE }
    else s1
  (o.buf 0 == 0xFF && o.buf 1 == 0xFF, s2)

/-- Locks the OTP ROM on the CP2130. -/
def lock_otp (T : Transport) (s : State) : State :=
  let control_buf_out := cArray 2 [0x00, 0x00]
  let (o, s1) := libusb_control_transfer T
    ⟨0x40, 0x6F, 0xA5F1, 0x0000, control_buf_out.bytes, control_buf_out.size, TR_TIMEOUT⟩ s
  if o.ret ≠ control_buf_out.size then
    { fprintf_stderr "Error: Failed control transfer (0x40, 0x6F).\n" s1 with
      err_level := EXIT_FAILURE }
  else s1

/-- Issues a reset to the CP2130, which in effect resets the entire device. -/
def reset (T : Transport) (s : State) : State :=
  let (o, s1) := libusb_control_transfer T ⟨0x40, 0x10, 0x0000, 0x0000, [], 0, TR_TIMEOUT⟩ s
  if o.ret ≠ 0 then
    { fprintf_stderr "Error: Failed control transfer (0x40, 0x10).\n" s1 with
      err_level := EXIT_FAILURE }
  else s1

/-- Buffer of `set_mfg_str1`: Bloguetrónica. -/
def mfg_str1_buf : CBuf := cArray 64 [
  0x1C, 0x03, 0x42, 0x00, 0x6C, 0x00, 0x6F, 0x00,
  0x67, 0x00, 0x75, 0x00, 0x65, 0x00, 0x74, 0x00,
  0x72, 0x00, 0xF3, 0x00, 0x6E, 0x00, 0x69, 0x00,
  0x63, 0x00, 0x61, 0x00, 0x00, 0x00, 0x00, 0x00,
  0x00, 0x00, 0x00, 0x00, 0x00, 0x00, 0x00, 0x00,
  0x00, 0x00, 0x00, 0x00, 0x00, 0x00, 0x00, 0x00,
  0x00, 0x00, 0x00, 0x00, 0x00, 0x00, 0x00, 0x00,
  0x00, 0x00, 0x00, 0x00, 0x00, 0x00, 0x00, 0x00]

/-- Sets the first half of the manufacturing string. -/
def set_mfg_str1 (T : Transport) (s : State) : State :=
  let control_buf_out := mfg_str1_buf
  let (o, s1) := libusb_control_transfer T
    ⟨0x40, 0x63, 0xA5F1, 0x0000, control_buf_out.bytes, control_buf_out.size, TR_TIMEOUT⟩ s
  if o.ret ≠ control_buf_out.size then
    { fprintf_stderr "Error: Failed control transfer (0x40, 0x63).\n" s1 with
      err_level := EXIT_FAILURE }
  else s1

/-- Buffer of `set_mfg_str2`. -/
def mfg_str2_buf : CBuf := cArray 64 [
  0x00, 0x00, 0x00, 0x00, 0x00, 0x00, 0x00, 0x00,
  0x00, 0x00, 0x00, 0x00, 0x00, 0x00, 0x00, 0x00,
  0x00, 0x00, 0x00, 0x00, 0x00, 0x00, 0x00, 0x00,
  0x00, 0x00, 0x00, 0x00, 0x00, 0x00, 0x00, 0x00,
  0x00, 0x00, 0x00, 0x00, 0x00, 0x00, 0x00, 0x00,
  0x00, 0x00, 0x00, 0x00, 0x00, 0x00, 0x00, 0x00,
  0x00, 0x00, 0x00, 0x00, 0x00, 0x00, 0x00, 0x00,
  0x00, 0x00, 0x00, 0x00, 0x00, 0x00, 0x00, 0x00]

/-- Sets the second half of the manufacturing string. -/
def set_mfg_str2 (T : Transport) (s : State) : State :=
  let control_buf_out := mfg_str2_buf
  let (o, s1) := libusb_control_transfer T
    ⟨0x40, 0x65, 0xA5F1, 0x0000, control_buf_out.bytes, control_buf_out.size, TR_TIMEOUT⟩ s
  if o.ret ≠ control_buf_out.size then
    { fprintf_stderr "Error: Failed control transfer (0x40, 0x65).\n" s1 with
      err_level := EXIT_FAILURE }
  else s1

/-- Buffer of `set_pin_cfg`. -/
def pin_cfg_buf : CBuf := cArray 20 [
  0x03,        -- GPIO.O as !CS0
  0x02,        -- GPIO.1 as output
  0x02,        -- GPIO.2 as output
  0x00,        -- GPIO.3 as input
  0x00,        -- GPIO.4 as input
  0x00,        -- GPIO.5 as input
  0x00,        -- GPIO.6 as input (not used)
  0x00,        -- GPIO.7 as input (not used)
  0x04,        -- GPIO.8 as SPIACT
  0x04,        -- GPIO.9 as SUSPEND
  0x04,        -- GPIO.10 as !SUSPEND
  0x00, 0x00,  -- Suspend pin level
  0x00, 0x00,  -- Suspend pin mode
  0x00, 0x00,  -- Wakeup pin mask
  0x00, 0x00,  -- Wakeup pin match
  0x00]        -- Clock divider set to 256

/-- Sets the pin configuration values. -/
def set_pin_cfg (T : Transport) (s : State) : State :=
  let control_buf_out := pin_cfg_buf
  let (o, s1) := libusb_control_transfer T
    ⟨0x40, 0x6D, 0xA5F1, 0x0000, control_buf_out.bytes, control_buf_out.size, TR_TIMEOUT⟩ s
  if o.ret ≠ control_buf_out.size then
    { fprintf_stderr "Error: Failed control transfer (0x40, 0x6D).\n" s1 with
      err_level := EXIT_FAILURE }
  else s1

/-- Buffer of `set_prd_str1`: ITUSB2 USB Test Switch. -/
def prd_str1_buf : CBuf := cArray 64 [
  0x2E, 0x03, 0x49, 0x00, 0x54, 0x00, 0x55, 0x00,
  0x53, 0x00, 0x42, 0x00, 0x32, 0x00, 0x20, 0x00,
  0x55, 0x00, 0x53, 0x00, 0x42, 0x00, 0x20, 0x00,
  0x54, 0x00, 0x65, 0x00, 0x73, 0x00, 0x74, 0x00,
  0x20, 0x00, 0x53, 0x00, 0x77, 0x00, 0x69, 0x00,
  0x74, 0x00, 0x63, 0x00, 0x68, 0x00, 0x00, 0x00,
  0x00, 0x00, 0x00, 0x00, 0x00, 0x00, 0x00, 0x00,
  0x00, 0x00, 0x00, 0x00, 0x00, 0x00, 0x00, 0x00]

/-- Sets the first half of the product string. -/
def set_prd_str1 (T : Transport) (s : State) : State :=
  let control_buf_out := prd_str1_buf
  let (o, s1) := libusb_control_transfer T
    ⟨0x40, 0x67, 0xA5F1, 0x0000, control_buf_out.bytes, control_buf_out.size, TR_TIMEOUT⟩ s
  if o.ret ≠ control_buf_out.size then
    { fprintf_stderr "Error: Failed control transfer (0x40, 0x67).\n" s1 with
      err_level := EXIT_FAILURE }
  else s1

/-- Buffer of `set_prd_str2`. -/
def prd_str2_buf : CBuf := cArray 64 [
  0x00, 0x00, 0x00, 0x00, 0x00, 0x00, 0x00, 0x00,
  0x00, 0x00, 0x00, 0x00, 0x00, 0x00, 0x00, 0x00,
  0x00, 0x00, 0x00, 0x00, 0x00, 0x00, 0x00, 0x00,
  0x00, 0x00, 0x00, 0x00, 0x00, 0x00, 0x00, 0x00,
  0x00, 0x00, 0x00, 0x00, 0x00, 0x00, 0x00, 0x00,
  0x00, 0x00, 0x00, 0x00, 0x00, 0x00, 0x00, 0x00,
  0x00, 0x00, 0x00, 0x00, 0x00, 0x00, 0x00, 0x00,
  0x00, 0x00, 0x00, 0x00, 0x00, 0x00, 0x00, 0x00]

/-- Sets the second half of the product string. -/
def set_prd_str2 (T : Transport) (s : State) : State :=
  let control_buf_out := prd_str2_buf
  let (o, s1) := libusb_control_transfer T
    ⟨0x40, 0x69, 0xA5F1, 0x0000, control_buf_out.bytes, control_buf_out.size, TR_TIMEOUT⟩ s
  if o.ret ≠ control_buf_out.size then
    { fprintf_stderr "Error: Failed control transfer (0x40, 0x69).\n" s1 with
      err_level := EXIT_FAILURE }
  else s1

/-- Buffer of `set_ser_str`: IU2-00xxxxxx, where `serial` is a `char[6]`
(each `char` is converted to `unsigned char` by the initialiser). -/
def ser_str_buf (serial : Fin 6 → Int) : CBuf := cArray 64 [
  0x1A, 0x03, 0x49, 0x00, 0x55, 0x00, 0x32, 0x00,
  0x2D, 0x00, 0x30, 0x00, 0x30, 0x00,
  toUChar (serial 0), 0x00,
  toUChar (serial 1), 0x00,
  toUChar (serial 2), 0x00,
  toUChar (serial 3), 0x00,
  toUChar (serial 4), 0x00,
  toUChar (serial 5), 0x00,
  0x00, 0x00, 0x00, 0x00, 0x00, 0x00,
  0x00, 0x00, 0x00, 0x00, 0x00, 0x00, 0x00, 0x00,
  0x00, 0x00, 0x00, 0x00, 0x00, 0x00, 0x00, 0x00,
  0x00, 0x00, 0x00, 0x00, 0x00, 0x00, 0x00, 0x00,
  0x00, 0x00, 0x00, 0x00, 0x00, 0x00, 0x00, 0x00]

/-- Sets the serial string. -/
def set_ser_str (T : Transport) (serial : Fin 6 → Int) (s : State) : State :=
  let control_buf_out := ser_str_buf serial
  let (o, s1) := libusb_control_transfer T
    ⟨0x40, 0x6B, 0xA5F1, 0x0000, control_buf_out.bytes, control_buf_out.size, TR_TIMEOUT⟩ s
  if o.ret ≠ control_buf_out.size then
    { fprintf_stderr "Error: Failed control transfer (0x40, 0x6B).\n" s1 with
      err_level := EXIT_FAILURE }
  else s1

/-- Buffer of `set_usb_cfg`. -/
def usb_cfg_buf : CBuf := cArray 10 [
  0xC4, 0x10,  -- VID is 0x10C4
  0xDF, 0x8C,  -- PID is 0x8CDF
  0x3C,        -- Maximum power is 120mA (0x3C)
  0x00,        -- USB bus powered with voltage regulator enabled
  0x01,        -- Major release number
  0x00,        -- Minor release number
  0x01,        -- High priority set
  0x9F]        -- Write relevant fields

/-- Sets the USB configuration values. -/
def set_usb_cfg (T : Transport) (s : State) : State :=
  let control_buf_out := usb_cfg_buf
  let (o, s1) := libusb_control_transfer T
    ⟨0x40, 0x61, 0xA5F1, 0x0000, control_buf_out.bytes, control_buf_out.size, TR_TIMEOUT⟩ s
  if o.ret ≠ control_buf_out.size then
    { fprintf_stderr "Error: Failed control transfer (0x40, 0x61).\n" s1 with
      err_level := EXIT_FAILURE }
  else s1

/-- One serial character from one result `r` of `rand()`:
`random = rand() % 36; (char)(random < 10 ? random + 48 : random + 55)`.
The C remainder truncates towards zero. -/
def serial_char (r : Int) : Int :=
  let random := Int.tmod r 36
  toChar (if random < 10 then random + 48 else random + 55)

/-- The serial generated by the loop of `configure_device`: iteration `i`
stores into `serial[i]` the character made from the `i`-th result of `rand()`
(`rand i`; the seeding by `srand(time(NULL))` is what fixes the sequence). -/
def gen_serial (rand : Nat → Int) : Fin 6 → Int :=
  fun i => serial_char (rand i.val)

/-- Configures the CP2130. -/
def configure_device (T : Transport) (rand : Nat → Int) (s : State) : State :=
  let serial := gen_serial rand
  let s := set_usb_cfg T s
  let s := set_mfg_str1 T s
  let s := set_mfg_str2 T s
  let s := set_prd_str1 T s
  let s := set_prd_str2 T s
  let s := set_ser_str T serial s
  let s := set_pin_cfg T s
  if s.err_level = EXIT_SUCCESS then lock_otp T s else s

/-- Everything outside the program that a run of `main` depends on. -/
structure Env where
  /-- Argument count. -/
  argc : Int
  /-- Result of `libusb_init`. -/
  libusb_init : Int
  /-- Whether `libusb_open_device_with_vid_pid_serial` returned `NULL`. -/
  devhandle_null : Bool
  /-- Result of `libusb_kernel_driver_active`. -/
  kernel_driver_active : Int
  /-- Result of `libusb_claim_interface`. -/
  claim_interface : Int
  /-- Result of `getc(stdin)`. -/
  getc : Int
  /-- Successive results of `rand()`. -/
  rand : Nat → Int
  /-- The transport behind `libusb_control_transfer`. -/
  transport : Transport

/-- The state in which `main` starts: `err_level = EXIT_SUCCESS`, nothing done. -/
def initial : State := ⟨EXIT_SUCCESS, [], [], [], []⟩

/-- The part of `main` run once the interface is claimed, up to the release of
the interface. -/
def claimed_run (e : Env) (s : State) : State :=
  let (blank, s) := is_otp_blank e.transport s
  if blank && s.err_level == EXIT_SUCCESS then
    let s := printf "Device is blank.\nDo you wish to configure it? [y/N] " s
    let cin := toChar e.getc
    if cin == 89 || cin == 121 then  -- 'Y' or 'y'
      let s := configure_device e.transport e.rand s
      let s := reset e.transport s
      if s.err_level == EXIT_SUCCESS then printf "Device is now configured.\n" s else s
    else
      printf "Device configuration canceled.\n" s
  else if s.err_level == EXIT_SUCCESS then
    printf "Device is not blank.\n" s
  else s

/-- The program: the final state, whose `err_level` is the exit status. -/
def main (e : Env) : State :=
  let s := initial
  if e.argc < 2 then
    { fprintf_stderr "Error: Missing argument.\nUsage: itusb2-r0-conf SERIALNUMBER\n" s with
      err_level := EXIT_USERERR }
  else
    let s := session_call .init s
    if e.libusb_init ≠ 0 then
      { fprintf_stderr "Error: Could not initialize libusb.\n" s with err_level := EXIT_FAILURE }
    else
      let s := session_call .open_device s
      let s :=
        if e.devhandle_null then
          { fprintf_stderr "Error: Could not find device.\n" s with err_level := EXIT_FAILURE }
        else
          let s := session_call .kernel_driver_active s
          let (kernel_attached, s) :=
            if e.kernel_driver_active ≠ 0 then (true, session_call .detach_kernel_driver s)
            else (false, s)
          let s := session_call .claim_interface s
          let s :=
            if e.claim_interface ≠ 0 then
              { fprintf_stderr "Error: Device is currently unavailable.\n" s with
                err_level := EXIT_FAILURE }
            else
              session_call .release_interface (claimed_run e s)
          let s := if kernel_attached then session_call .attach_kernel_driver s else s
          session_call .close s
      session_call .exit s

/-! ## The requests, named

The request each operation passes to `libusb_control_transfer`, read off its
call.  The operations above are shown below to issue exactly these. -/

/-- Request of `is_otp_blank`. -/
def blank_req : ControlRequest := ⟨0xC0, 0x6E, 0x0000, 0x0000, [], 2, TR_TIMEOUT⟩

/-- Request of `lock_otp`. -/
def lock_req : ControlRequest :=
  ⟨0x40, 0x6F, 0xA5F1, 0x0000, (cArray 2 [0x00, 0x00]).bytes, (cArray 2 [0x00, 0x00]).size,
    TR_TIMEOUT⟩

/-- Request of `reset`. -/
def reset_req : ControlRequest := ⟨0x40, 0x10, 0x0000, 0x0000, [], 0, TR_TIMEOUT⟩

/-- Request of `set_usb_cfg`. -/
def usb_cfg_req : ControlRequest :=
  ⟨0x40, 0x61, 0xA5F1, 0x0000, usb_cfg_buf.bytes, usb_cfg_buf.size, TR_TIMEOUT⟩

/-- Request of `set_mfg_str1`. -/
def mfg_str1_req : ControlRequest :=
  ⟨0x40, 0x63, 0xA5F1, 0x0000, mfg_str1_buf.bytes, mfg_str1_buf.size, TR_TIMEOUT⟩

/-- Request of `set_mfg_str2`. -/
def mfg_str2_req : ControlRequest :=
  ⟨0x40, 0x65, 0xA5F1, 0x0000, mfg_str2_buf.bytes, mfg_str2_buf.size, TR_TIMEOUT⟩

/-- Request of `set_prd_str1`. -/
def prd_str1_req : ControlRequest :=
  ⟨0x40, 0x67, 0xA5F1, 0x0000, prd_str1_buf.bytes, prd_str1_buf.size, TR_TIMEOUT⟩

/-- Request of `set_prd_str2`. -/
def prd_str2_req : ControlRequest :=
  ⟨0x40, 0x69, 0xA5F1, 0x0000, prd_str2_buf.bytes, prd_str2_buf.size, TR_TIMEOUT⟩

/-- Request of `set_ser_str`. -/
def ser_str_req (serial : Fin 6 → Int) : ControlRequest :=
  ⟨0x40, 0x6B, 0xA5F1, 0x0000, (ser_str_buf serial).bytes, (ser_str_buf serial).size,
    TR_TIMEOUT⟩

/-- Request of `set_pin_cfg`. -/
def pin_cfg_req : ControlRequest :=
  ⟨0x40, 0x6D, 0xA5F1, 0x0000, pin_cfg_buf.bytes, pin_cfg_buf.size, TR_TIMEOUT⟩

/-- The shape shared by the ten operations that make a transfer: issue `req`,
and on a result other than the requested length report `msg` and set
`err_level` to failure. -/
def checked (T : Transport) (req : ControlRequest) (msg : String) (s : State) : State :=
  if (T s.trace req).ret ≠ req.wLength then
    { s with trace := s.trace ++ [⟨req, (T s.trace req).ret⟩], stderr := s.stderr ++ [msg],
             err_level := EXIT_FAILURE }
  else { s with trace := s.trace ++ [⟨req, (T s.trace req).ret⟩] }

/-- The transfers a step adds to the run: what `after` recorded beyond what
`before` had. -/
def issued (before after : State) : List Xfer :=
  after.trace.drop before.trace.length

/-- The request codes of a list of transfers, in order. -/
def codes (xs : List Xfer) : List Nat := xs.map (fun x => x.req.bRequest)

/-- Direction bit of `bmRequestType` (`LIBUSB_ENDPOINT_IN`, 0x80) clear:
the transfer is host-to-device. -/
def hostToDevice (q : ControlRequest) : Bool := q.bmRequestType / 128 % 2 == 0

/-- The request codes of the seven configuration writes, in the order of
`configure_device`. -/
def write_codes : List Nat := [0x61, 0x63, 0x65, 0x67, 0x69, 0x6B, 0x6D]

/-- The run got as far as a claimed interface: an argument was given, libusb
initialised, the device was found and its interface claimed. -/
def Claimed (e : Env) : Prop :=
  2 ≤ e.argc ∧ e.libusb_init = 0 ∧ e.devhandle_null = false ∧ e.claim_interface = 0

instance (e : Env) : Decidable (Claimed e) := by
  unfold Claimed; infer_instance

/-- The seven configuration requests in the order of `configure_device`. -/
def config_reqs (serial : Fin 6 → Int) : List ControlRequest :=
  [usb_cfg_req, mfg_str1_req, mfg_str2_req, prd_str1_req, prd_str2_req, ser_str_req serial,
    pin_cfg_req]

/-! ## Sample environments -/

/-- A blank device behind a faultless transport: every transfer returns the
length asked for and the lock bytes read 0xFF, 0xFF. -/
def blank_transport : Transport := fun _ q => ⟨q.wLength, fun _ => 0xFF⟩

/-- A configured device: the lock bytes read 0x00, 0x01. -/
def locked_transport : Transport := fun _ q => ⟨q.wLength, fun i => if i = 0 then 0x00 else 0x01⟩

/-- A blank device on which the pin-configuration write is short (19 of 20). -/
def short_pin_transport : Transport :=
  fun _ q => ⟨if q.bRequest = 0x6D then 19 else q.wLength, fun _ => 0xFF⟩

/-- A blank device on which the reset fails with `LIBUSB_ERROR_TIMEOUT` (-7). -/
def failed_reset_transport : Transport :=
  fun _ q => ⟨if q.bRequest = 0x10 then -7 else q.wLength, fun _ => 0xFF⟩

/-- A transport on which the lock-state read fails with `LIBUSB_ERROR_IO` (-1)
while the two bytes of the receive buffer hold 0xFF. -/
def failed_read_transport : Transport := fun _ _ => ⟨-1, fun _ => 0xFF⟩

/-- A run that reaches a claimed device, with the given transport and the given
result of `getc`; `rand()` yields 0, 1, 2, ... -/
def claimed_env (T : Transport) (getc : Int) : Env :=
  ⟨2, 0, false, 0, 0, getc, fun i => i, T⟩

/-- The serial "ABC123" as a `char[6]`. -/
def abc123 : Fin 6 → Int := fun i => [65, 66, 67, 49, 50, 51].getD i.val 0

/-- The ten requests the program contains, one per call of
`libusb_control_transfer` in the source. -/
def all_reqs (serial : Fin 6 → Int) : List ControlRequest :=
  [blank_req, usb_cfg_req, mfg_str1_req, mfg_str2_req, prd_str1_req, prd_str2_req,
    ser_str_req serial, pin_cfg_req, lock_req, reset_req]

/-! ## Specification-side definitions

These follow the words of the specification, to be compared with what the
program does. -/

/-- One row of the chip register map: request code, direction, value
parameter and payload size. -/
structure MapRow where
  code : Nat
  deviceToHost : Bool
  value : Nat
  size : Nat
deriving DecidableEq, Repr

/-- The chip register map as the specification tabulates it. -/
def spec_register_map : List MapRow := [
  ⟨0x6E, true, 0x0000, 2⟩,    -- read lock-state bytes
  ⟨0x6F, false, 0xA5F1, 2⟩,   -- write lock-state bytes (lock)
  ⟨0x10, false, 0x0000, 0⟩,   -- device reset
  ⟨0x63, false, 0xA5F1, 64⟩,  -- manufacturing string, half 1
  ⟨0x65, false, 0xA5F1, 64⟩,  -- manufacturing string, half 2
  ⟨0x6D, false, 0xA5F1, 20⟩,  -- pin configuration
  ⟨0x67, false, 0xA5F1, 64⟩,  -- product string, half 1
  ⟨0x69, false, 0xA5F1, 64⟩,  -- product string, half 2
  ⟨0x6B, false, 0xA5F1, 64⟩,  -- serial string
  ⟨0x61, false, 0xA5F1, 10⟩]  -- USB device descriptor fields

/-- A request agrees with a row of the register map: same code, direction,
value and size. -/
def agrees (q : ControlRequest) (row : MapRow) : Bool :=
  row.code == q.bRequest && row.deviceToHost == !hostToDevice q && row.value == q.wValue &&
    row.size == q.wLength

/-- A request matches its row of the register map and has index 0x0000. -/
def conforms (q : ControlRequest) : Bool :=
  q.wIndex == 0x0000 && spec_register_map.any (agrees q)

/-- The serial alphabet: the ASCII codes of 0-9 and A-Z. -/
def in_alphabet (c : Int) : Prop := (48 ≤ c ∧ c ≤ 57) ∨ (65 ≤ c ∧ c ≤ 90)

instance (c : Int) : Decidable (in_alphabet c) := by
  unfold in_alphabet; infer_instance

/-- UTF-16LE bytes of a sequence of 16-bit code units: low byte, high byte. -/
def utf16le (units : List Nat) : List Nat :=
  units.flatMap (fun u => [u % 256, u / 256])

/-- The UTF-16 code units of a text all of whose characters lie in the Basic
Multilingual Plane (one unit per character, the code point). -/
def code_units (text : String) : List Nat := text.toList.map Char.toNat

/-- The 64-byte image of a USB string descriptor: length byte
`2 + 2 * (number of characters)`, descriptor type 0x03, the UTF-16LE code
units, then zeros up to 64 bytes. -/
def string_image (units : List Nat) : List Nat :=
  [2 + 2 * units.length, 0x03] ++ utf16le units ++
    List.replicate (64 - (2 + 2 * units.length)) 0

/-! ## Shape of the operations -/


theorem set_usb_cfg_eq (T : Transport) (s : State) : set_usb_cfg T s =
    checked T usb_cfg_req "Error: Failed control transfer (0x40, 0x61).\n" s := rfl

theorem set_mfg_str1_eq (T : Transport) (s : State) : set_mfg_str1 T s =
    checked T mfg_str1_req "Error: Failed control transfer (0x40, 0x63).\n" s := rfl

theorem set_mfg_str2_eq (T : Transport) (s : State) : set_mfg_str2 T s =
    checked T mfg_str2_req "Error: Failed control transfer (0x40, 0x65).\n" s := rfl

theorem set_prd_str1_eq (T : Transport) (s : State) : set_prd_str1 T s =
    checked T prd_str1_req "Error: Failed control transfer (0x40, 0x67).\n" s := rfl

theorem set_prd_str2_eq (T : Transport) (s : State) : set_prd_str2 T s =
    checked T prd_str2_req "Error: Failed control transfer (0x40, 0x69).\n" s := rfl

theorem set_ser_str_eq (T : Transport) (serial : Fin 6 → Int) (s : State) :
    set_ser_str T serial s =
    checked T (ser_str_req serial) "Error: Failed control transfer (0x40, 0x6B).\n" s := rfl

theorem set_pin_cfg_eq (T : Transport) (s : State) : set_pin_cfg T s =
    checked T pin_cfg_req "Error: Failed control transfer (0x40, 0x6D).\n" s := rfl

theorem lock_otp_eq (T : Transport) (s : State) : lock_otp T s =
    checked T lock_req "Error: Failed control transfer (0x40, 0x6F).\n" s := rfl

theorem reset_eq (T : Transport) (s : State) : reset T s =
    checked T reset_req "Error: Failed control transfer (0x40, 0x10).\n" s := rfl

theorem checked_trace (T : Transport) (req : ControlRequest) (msg : String) (s : State) :
    (checked T req msg s).trace = s.trace ++ [⟨req, (T s.trace req).ret⟩] := by
  unfold checked
  split <;> rfl

theorem checked_err_level (T : Transport) (req : ControlRequest) (msg : String) (s : State) :
    (checked T req msg s).err_level =
      if (T s.trace req).ret = req.wLength then s.err_level else EXIT_FAILURE := by
  unfold checked
  by_cases h : (T s.trace req).ret = req.wLength <;> simp [h]

/-- Shape of `checked`: one transfer is added, and the status is kept on a
full-length result and becomes failure on any other. -/
theorem checked_shape (T : Transport) (req : ControlRequest) (msg : String) (s : State) :
    ∃ r : Int, (checked T req msg s).trace = s.trace ++ [⟨req, r⟩] ∧
      (checked T req msg s).err_level = if r = req.wLength then s.err_level else EXIT_FAILURE :=
  ⟨_, checked_trace T req msg s, checked_err_level T req msg s⟩

/-- The function `configure_device` as a chain of checked writes. -/
theorem configure_device_eq (T : Transport) (rand : Nat → Int) (s : State) :
    configure_device T rand s =
      if (checked T pin_cfg_req "Error: Failed control transfer (0x40, 0x6D).\n"
          (checked T (ser_str_req (gen_serial rand)) "Error: Failed control transfer (0x40, 0x6B).\n"
          (checked T prd_str2_req "Error: Failed control transfer (0x40, 0x69).\n"
          (checked T prd_str1_req "Error: Failed control transfer (0x40, 0x67).\n"
          (checked T mfg_str2_req "Error: Failed control transfer (0x40, 0x65).\n"
          (checked T mfg_str1_req "Error: Failed control transfer (0x40, 0x63).\n"
          (checked T usb_cfg_req "Error: Failed control transfer (0x40, 0x61).\n"
            s))))))).err_level = EXIT_SUCCESS
      then checked T lock_req "Error: Failed control transfer (0x40, 0x6F).\n"
          (checked T pin_cfg_req "Error: Failed control transfer (0x40, 0x6D).\n"
          (checked T (ser_str_req (gen_serial rand)) "Error: Failed control transfer (0x40, 0x6B).\n"
          (checked T prd_str2_req "Error: Failed control transfer (0x40, 0x69).\n"
          (checked T prd_str1_req "Error: Failed control transfer (0x40, 0x67).\n"
          (checked T mfg_str2_req "Error: Failed control transfer (0x40, 0x65).\n"
          (checked T mfg_str1_req "Error: Failed control transfer (0x40, 0x63).\n"
          (checked T usb_cfg_req "Error: Failed control transfer (0x40, 0x61).\n"
            s)))))))
      else checked T pin_cfg_req "Error: Failed control transfer (0x40, 0x6D).\n"
          (checked T (ser_str_req (gen_serial rand)) "Error: Failed control transfer (0x40, 0x6B).\n"
          (checked T prd_str2_req "Error: Failed control transfer (0x40, 0x69).\n"
          (checked T prd_str1_req "Error: Failed control transfer (0x40, 0x67).\n"
          (checked T mfg_str2_req "Error: Failed control transfer (0x40, 0x65).\n"
          (checked T mfg_str1_req "Error: Failed control transfer (0x40, 0x63).\n"
          (checked T usb_cfg_req "Error: Failed control transfer (0x40, 0x61).\n"
            s)))))) := by
  rw [← set_usb_cfg_eq, ← set_mfg_str1_eq, ← set_mfg_str2_eq, ← set_prd_str1_eq,
    ← set_prd_str2_eq, ← set_ser_str_eq, ← set_pin_cfg_eq, ← lock_otp_eq]
  rfl

/-- Shape of `configure_device`: the seven writes in order, each with its
result, then the lock exactly when the status was success on entry and every
write returned its length. -/
theorem configure_device_shape (T : Transport) (rand : Nat → Int) (s : State) :
    ∃ r1 r2 r3 r4 r5 r6 r7 rl : Int,
      (configure_device T rand s).trace =
        s.trace ++ [⟨usb_cfg_req, r1⟩, ⟨mfg_str1_req, r2⟩, ⟨mfg_str2_req, r3⟩,
          ⟨prd_str1_req, r4⟩, ⟨prd_str2_req, r5⟩, ⟨ser_str_req (gen_serial rand), r6⟩,
          ⟨pin_cfg_req, r7⟩] ++
          (if s.err_level = EXIT_SUCCESS ∧ r1 = 10 ∧ r2 = 64 ∧ r3 = 64 ∧ r4 = 64 ∧ r5 = 64 ∧
              r6 = 64 ∧ r7 = 20 then [⟨lock_req, rl⟩] else []) ∧
      (configure_device T rand s).err_level =
        (if r1 = 10 ∧ r2 = 64 ∧ r3 = 64 ∧ r4 = 64 ∧ r5 = 64 ∧ r6 = 64 ∧ r7 = 20 then
          (if s.err_level = EXIT_SUCCESS then (if rl = 2 then EXIT_SUCCESS else EXIT_FAILURE)
           else s.err_level)
         else EXIT_FAILURE) := by
  rw [configure_device_eq]
  obtain ⟨r1, t1, e1⟩ := checked_shape T usb_cfg_req
    "Error: Failed control transfer (0x40, 0x61).\n" s
  generalize checked T usb_cfg_req _ s = s1 at t1 e1 ⊢
  obtain ⟨r2, t2, e2⟩ := checked_shape T mfg_str1_req
    "Error: Failed control transfer (0x40, 0x63).\n" s1
  generalize checked T mfg_str1_req _ s1 = s2 at t2 e2 ⊢
  obtain ⟨r3, t3, e3⟩ := checked_shape T mfg_str2_req
    "Error: Failed control transfer (0x40, 0x65).\n" s2
  generalize checked T mfg_str2_req _ s2 = s3 at t3 e3 ⊢
  obtain ⟨r4, t4, e4⟩ := checked_shape T prd_str1_req
    "Error: Failed control transfer (0x40, 0x67).\n" s3
  generalize checked T prd_str1_req _ s3 = s4 at t4 e4 ⊢
  obtain ⟨r5, t5, e5⟩ := checked_shape T prd_str2_req
    "Error: Failed control transfer (0x40, 0x69).\n" s4
  generalize checked T prd_str2_req _ s4 = s5 at t5 e5 ⊢
  obtain ⟨r6, t6, e6⟩ := checked_shape T (ser_str_req (gen_serial rand))
    "Error: Failed control transfer (0x40, 0x6B).\n" s5
  generalize checked T (ser_str_req (gen_serial rand)) _ s5 = s6 at t6 e6 ⊢
  obtain ⟨r7, t7, e7⟩ := checked_shape T pin_cfg_req
    "Error: Failed control transfer (0x40, 0x6D).\n" s6
  generalize checked T pin_cfg_req _ s6 = s7 at t7 e7 ⊢
  obtain ⟨rl, tl, el⟩ := checked_shape T lock_req
    "Error: Failed control transfer (0x40, 0x6F).\n" s7
  generalize checked T lock_req _ s7 = s8 at tl el ⊢
  have w1 : (usb_cfg_req.wLength : Int) = 10 := rfl
  have w2 : (mfg_str1_req.wLength : Int) = 64 := rfl
  have w3 : (mfg_str2_req.wLength : Int) = 64 := rfl
  have w4 : (prd_str1_req.wLength : Int) = 64 := rfl
  have w5 : (prd_str2_req.wLength : Int) = 64 := rfl
  have w6 : ((ser_str_req (gen_serial rand)).wLength : Int) = 64 := rfl
  have w7 : (pin_cfg_req.wLength : Int) = 20 := rfl
  have wl : (lock_req.wLength : Int) = 2 := rfl
  rw [w1] at e1; rw [w2] at e2; rw [w3] at e3; rw [w4] at e4; rw [w5] at e5
  rw [w6] at e6; rw [w7] at e7; rw [wl] at el
  have t7k : s7.trace = s.trace ++ [⟨usb_cfg_req, r1⟩, ⟨mfg_str1_req, r2⟩, ⟨mfg_str2_req, r3⟩,
      ⟨prd_str1_req, r4⟩, ⟨prd_str2_req, r5⟩, ⟨ser_str_req (gen_serial rand), r6⟩,
      ⟨pin_cfg_req, r7⟩] := by
    rw [t7, t6, t5, t4, t3, t2, t1]; simp
  have e7k : s7.err_level =
      if r1 = 10 ∧ r2 = 64 ∧ r3 = 64 ∧ r4 = 64 ∧ r5 = 64 ∧ r6 = 64 ∧ r7 = 20 then s.err_level
      else EXIT_FAILURE := by
    rw [e7, e6, e5, e4, e3, e2, e1]
    by_cases h1 : r1 = 10 <;> by_cases h2 : r2 = 64 <;> by_cases h3 : r3 = 64 <;>
      by_cases h4 : r4 = 64 <;> by_cases h5 : r5 = 64 <;> by_cases h6 : r6 = 64 <;>
      by_cases h7 : r7 = 20 <;> simp [h1, h2, h3, h4, h5, h6, h7]
  refine ⟨r1, r2, r3, r4, r5, r6, r7, rl, ?_, ?_⟩
  · by_cases hk : r1 = 10 ∧ r2 = 64 ∧ r3 = 64 ∧ r4 = 64 ∧ r5 = 64 ∧ r6 = 64 ∧ r7 = 20
    · by_cases hs : s.err_level = EXIT_SUCCESS
      · have h7 : s7.err_level = EXIT_SUCCESS := by rw [e7k, if_pos hk, hs]
        rw [if_pos h7, if_pos ⟨hs, hk⟩, tl, t7k]
      · have h7 : ¬ s7.err_level = EXIT_SUCCESS := by rw [e7k, if_pos hk]; exact hs
        rw [if_neg h7, if_neg (fun h => hs h.1), t7k]; simp
    · have h7 : ¬ s7.err_level = EXIT_SUCCESS := by rw [e7k, if_neg hk]; decide
      rw [if_neg h7, if_neg (fun h => hk h.2), t7k]; simp
  · by_cases hk : r1 = 10 ∧ r2 = 64 ∧ r3 = 64 ∧ r4 = 64 ∧ r5 = 64 ∧ r6 = 64 ∧ r7 = 20
    · by_cases hs : s.err_level = EXIT_SUCCESS
      · have h7 : s7.err_level = EXIT_SUCCESS := by rw [e7k, if_pos hk, hs]
        rw [if_pos h7, if_pos hk, if_pos hs, el, h7]
      · have h7 : ¬ s7.err_level = EXIT_SUCCESS := by rw [e7k, if_pos hk]; exact hs
        rw [if_neg h7, if_pos hk, if_neg hs, e7k, if_pos hk]
    · have h7 : ¬ s7.err_level = EXIT_SUCCESS := by rw [e7k, if_neg hk]; decide
      rw [if_neg h7, if_neg hk, e7k, if_neg hk]

theorem is_otp_blank_eq (T : Transport) (s : State) : is_otp_blank T s =
    ((T s.trace blank_req).buf 0 == 0xFF && (T s.trace blank_req).buf 1 == 0xFF,
      checked T blank_req "Error: Failed control transfer (0xC0, 0x6E).\n" s) := rfl

theorem printf_trace (msg : String) (s : State) : (printf msg s).trace = s.trace := rfl

theorem printf_err_level (msg : String) (s : State) : (printf msg s).err_level = s.err_level :=
  rfl

/-- The function `claimed_run` in terms of `checked`. -/
theorem claimed_run_eq (e : Env) (s : State) :
    claimed_run e s =
      if (((e.transport s.trace blank_req).buf 0 == 0xFF &&
            (e.transport s.trace blank_req).buf 1 == 0xFF) &&
          (checked e.transport blank_req "Error: Failed control transfer (0xC0, 0x6E).\n"
            s).err_level == EXIT_SUCCESS) = true then
        if (toChar e.getc == 89 || toChar e.getc == 121) = true then
          if ((checked e.transport reset_req "Error: Failed control transfer (0x40, 0x10).\n"
              (configure_device e.transport e.rand
                (printf "Device is blank.\nDo you wish to configure it? [y/N] "
                  (checked e.transport blank_req
                    "Error: Failed control transfer (0xC0, 0x6E).\n" s)))).err_level
              == EXIT_SUCCESS) = true then
            printf "Device is now configured.\n"
              (checked e.transport reset_req "Error: Failed control transfer (0x40, 0x10).\n"
                (configure_device e.transport e.rand
                  (printf "Device is blank.\nDo you wish to configure it? [y/N] "
                    (checked e.transport blank_req
                      "Error: Failed control transfer (0xC0, 0x6E).\n" s))))
          else
            checked e.transport reset_req "Error: Failed control transfer (0x40, 0x10).\n"
              (configure_device e.transport e.rand
                (printf "Device is blank.\nDo you wish to configure it? [y/N] "
                  (checked e.transport blank_req
                    "Error: Failed control transfer (0xC0, 0x6E).\n" s)))
        else
          printf "Device configuration canceled.\n"
            (printf "Device is blank.\nDo you wish to configure it? [y/N] "
              (checked e.transport blank_req
                "Error: Failed control transfer (0xC0, 0x6E).\n" s))
      else if ((checked e.transport blank_req "Error: Failed control transfer (0xC0, 0x6E).\n"
          s).err_level == EXIT_SUCCESS) = true then
        printf "Device is not blank.\n"
          (checked e.transport blank_req "Error: Failed control transfer (0xC0, 0x6E).\n" s)
      else checked e.transport blank_req "Error: Failed control transfer (0xC0, 0x6E).\n" s := by
  rw [← reset_eq]
  rfl

/-- Shape of `claimed_run` entered with status success: the blank-check read
first; then, exactly when it returned 2 bytes, both 0xFF, and the operator
answered Y or y, the configuration sequence followed by the reset. -/
theorem claimed_run_shape (e : Env) (s : State) (hs : s.err_level = EXIT_SUCCESS) :
    ∃ r1 r2 r3 r4 r5 r6 r7 rl rr : Int,
      (claimed_run e s).trace =
        s.trace ++ ⟨blank_req, (e.transport s.trace blank_req).ret⟩ ::
          (if (e.transport s.trace blank_req).ret = 2 ∧
              (e.transport s.trace blank_req).buf 0 = 0xFF ∧
              (e.transport s.trace blank_req).buf 1 = 0xFF ∧
              (toChar e.getc = 89 ∨ toChar e.getc = 121) then
            [⟨usb_cfg_req, r1⟩, ⟨mfg_str1_req, r2⟩, ⟨mfg_str2_req, r3⟩,
              ⟨prd_str1_req, r4⟩, ⟨prd_str2_req, r5⟩, ⟨ser_str_req (gen_serial e.rand), r6⟩,
              ⟨pin_cfg_req, r7⟩] ++
            (if r1 = 10 ∧ r2 = 64 ∧ r3 = 64 ∧ r4 = 64 ∧ r5 = 64 ∧ r6 = 64 ∧ r7 = 20 then
              [⟨lock_req, rl⟩] else []) ++ [⟨reset_req, rr⟩]
          else []) ∧
      (claimed_run e s).err_level =
        (if (e.transport s.trace blank_req).ret = 2 then
          (if (e.transport s.trace blank_req).buf 0 = 0xFF ∧
              (e.transport s.trace blank_req).buf 1 = 0xFF ∧
              (toChar e.getc = 89 ∨ toChar e.getc = 121) then
            (if (r1 = 10 ∧ r2 = 64 ∧ r3 = 64 ∧ r4 = 64 ∧ r5 = 64 ∧ r6 = 64 ∧ r7 = 20) ∧
                rl = 2 ∧ rr = 0 then EXIT_SUCCESS else EXIT_FAILURE)
          else EXIT_SUCCESS)
        else EXIT_FAILURE) := by
  rw [claimed_run_eq]
  have tb := checked_trace e.transport blank_req
    "Error: Failed control transfer (0xC0, 0x6E).\n" s
  have eb := checked_err_level e.transport blank_req
    "Error: Failed control transfer (0xC0, 0x6E).\n" s
  have wb : (blank_req.wLength : Int) = 2 := rfl
  rw [wb, hs] at eb
  generalize checked e.transport blank_req _ s = sb at tb eb ⊢
  generalize e.transport s.trace blank_req = o at tb eb ⊢
  by_cases hr : o.ret = 2
  · rw [if_pos hr] at eb
    by_cases hb : o.buf 0 = 0xFF ∧ o.buf 1 = 0xFF
    · by_cases hc : toChar e.getc = 89 ∨ toChar e.getc = 121
      · have c1 : ((o.buf 0 == 0xFF && o.buf 1 == 0xFF) && sb.err_level == EXIT_SUCCESS)
            = true := by simp [hb.1, hb.2, eb]
        have c2 : (toChar e.getc == 89 || toChar e.getc == 121) = true := by
          simpa using hc
        rw [if_pos c1, if_pos c2]
        obtain ⟨r1, r2, r3, r4, r5, r6, r7, rl, tc, ec⟩ := configure_device_shape e.transport
          e.rand (printf "Device is blank.\nDo you wish to configure it? [y/N] " sb)
        rw [printf_trace, printf_err_level, eb] at tc
        rw [printf_err_level, eb, if_pos rfl] at ec
        simp only [true_and] at tc
        have g1 : o.ret = 2 ∧ o.buf 0 = 0xFF ∧ o.buf 1 = 0xFF ∧
            (toChar e.getc = 89 ∨ toChar e.getc = 121) := ⟨hr, hb.1, hb.2, hc⟩
        have g2 : o.buf 0 = 0xFF ∧ o.buf 1 = 0xFF ∧
            (toChar e.getc = 89 ∨ toChar e.getc = 121) := ⟨hb.1, hb.2, hc⟩
        generalize configure_device e.transport e.rand _ = sc at tc ec ⊢
        obtain ⟨rr, tr, er⟩ := checked_shape e.transport reset_req
          "Error: Failed control transfer (0x40, 0x10).\n" sc
        have wr : (reset_req.wLength : Int) = 0 := rfl
        rw [wr] at er
        generalize checked e.transport reset_req _ sc = sr at tr er ⊢
        refine ⟨r1, r2, r3, r4, r5, r6, r7, rl, rr, ?_, ?_⟩
        · have : (if (sr.err_level == EXIT_SUCCESS) = true then
              printf "Device is now configured.\n" sr else sr).trace = sr.trace := by
            split <;> rfl
          rw [this, tr, tc, tb, if_pos g1]
          by_cases hk : r1 = 10 ∧ r2 = 64 ∧ r3 = 64 ∧ r4 = 64 ∧ r5 = 64 ∧ r6 = 64 ∧ r7 = 20
          · simp [hk]
          · simp [hk]
        · have : (if (sr.err_level == EXIT_SUCCESS) = true then
              printf "Device is now configured.\n" sr else sr).err_level = sr.err_level := by
            split <;> rfl
          rw [this, er, ec, if_pos hr, if_pos g2]
          by_cases hk : r1 = 10 ∧ r2 = 64 ∧ r3 = 64 ∧ r4 = 64 ∧ r5 = 64 ∧ r6 = 64 ∧ r7 = 20
          · by_cases hl : rl = 2 <;> by_cases h0 : rr = 0 <;> simp [hk, hl, h0]
          · by_cases h0 : rr = 0 <;> simp [hk, h0]
      · have c1 : ((o.buf 0 == 0xFF && o.buf 1 == 0xFF) && sb.err_level == EXIT_SUCCESS)
            = true := by simp [hb.1, hb.2, eb]
        have c2 : ¬ (toChar e.getc == 89 || toChar e.getc == 121) = true := by
          simpa using hc
        rw [if_pos c1, if_neg c2]
        refine ⟨0, 0, 0, 0, 0, 0, 0, 0, 0, ?_, ?_⟩
        · rw [printf_trace, printf_trace, tb, if_neg (fun h => hc h.2.2.2)]
        · rw [printf_err_level, printf_err_level, eb, if_pos hr, if_neg (fun h => hc h.2.2)]
    · have c1 : ¬ ((o.buf 0 == 0xFF && o.buf 1 == 0xFF) && sb.err_level == EXIT_SUCCESS)
          = true := by
        simp only [Bool.and_eq_true, beq_iff_eq, not_and]
        intro h; exact absurd h hb
      have c3 : (sb.err_level == EXIT_SUCCESS) = true := by simp [eb]
      rw [if_neg c1, if_pos c3]
      refine ⟨0, 0, 0, 0, 0, 0, 0, 0, 0, ?_, ?_⟩
      · rw [printf_trace, tb, if_neg (fun h => hb ⟨h.2.1, h.2.2.1⟩)]
      · rw [printf_err_level, eb, if_pos hr, if_neg (fun h => hb ⟨h.1, h.2.1⟩)]
  · rw [if_neg hr] at eb
    have c1 : ¬ ((o.buf 0 == 0xFF && o.buf 1 == 0xFF) && sb.err_level == EXIT_SUCCESS)
        = true := by simp [eb]
    have c3 : ¬ (sb.err_level == EXIT_SUCCESS) = true := by simp [eb]
    rw [if_neg c1, if_neg c3]
    refine ⟨0, 0, 0, 0, 0, 0, 0, 0, 0, ?_, ?_⟩
    · rw [tb, if_neg (fun h => hr h.1)]
    · rw [eb, if_neg hr]

theorem session_call_trace (c : SessionCall) (s : State) :
    (session_call c s).trace = s.trace := rfl

theorem session_call_err_level (c : SessionCall) (s : State) :
    (session_call c s).err_level = s.err_level := rfl

/-- On a claimed device the transfers and the exit status of `main` are those
of `claimed_run`, entered with status success and nothing transferred yet. -/
theorem main_claimed (e : Env) (h : Claimed e) :
    ∃ s0 : State, s0.err_level = EXIT_SUCCESS ∧ s0.trace = [] ∧
      (main e).trace = (claimed_run e s0).trace ∧
      (main e).err_level = (claimed_run e s0).err_level := by
  obtain ⟨h1, h2, h3, h4⟩ := h
  have a1 : ¬ e.argc < 2 := not_lt.mpr h1
  by_cases hk : e.kernel_driver_active ≠ 0
  · refine ⟨session_call .claim_interface (session_call .detach_kernel_driver
      (session_call .kernel_driver_active (session_call .open_device
        (session_call .init initial)))), rfl, rfl, ?_, ?_⟩ <;>
    · unfold main
      simp only [if_neg a1, h2, h3, h4, ne_eq, not_true_eq_false, if_false, if_pos hk,
        Bool.false_eq_true, if_true]
      rfl
  · refine ⟨session_call .claim_interface
      (session_call .kernel_driver_active (session_call .open_device
        (session_call .init initial))), rfl, rfl, ?_, ?_⟩ <;>
    · unfold main
      simp only [if_neg a1, h2, h3, h4, ne_eq, not_true_eq_false, if_false, if_neg hk,
        Bool.false_eq_true]
      rfl

/-- Shape of a run of `main` on a claimed device. -/
theorem main_shape (e : Env) (h : Claimed e) :
    ∃ r1 r2 r3 r4 r5 r6 r7 rl rr : Int,
      (main e).trace =
        ⟨blank_req, (e.transport [] blank_req).ret⟩ ::
          (if (e.transport [] blank_req).ret = 2 ∧
              (e.transport [] blank_req).buf 0 = 0xFF ∧
              (e.transport [] blank_req).buf 1 = 0xFF ∧
              (toChar e.getc = 89 ∨ toChar e.getc = 121) then
            [⟨usb_cfg_req, r1⟩, ⟨mfg_str1_req, r2⟩, ⟨mfg_str2_req, r3⟩,
              ⟨prd_str1_req, r4⟩, ⟨prd_str2_req, r5⟩, ⟨ser_str_req (gen_serial e.rand), r6⟩,
              ⟨pin_cfg_req, r7⟩] ++
            (if r1 = 10 ∧ r2 = 64 ∧ r3 = 64 ∧ r4 = 64 ∧ r5 = 64 ∧ r6 = 64 ∧ r7 = 20 then
              [⟨lock_req, rl⟩] else []) ++ [⟨reset_req, rr⟩]
          else []) ∧
      (main e).err_level =
        (if (e.transport [] blank_req).ret = 2 then
          (if (e.transport [] blank_req).buf 0 = 0xFF ∧
              (e.transport [] blank_req).buf 1 = 0xFF ∧
              (toChar e.getc = 89 ∨ toChar e.getc = 121) then
            (if (r1 = 10 ∧ r2 = 64 ∧ r3 = 64 ∧ r4 = 64 ∧ r5 = 64 ∧ r6 = 64 ∧ r7 = 20) ∧
                rl = 2 ∧ rr = 0 then EXIT_SUCCESS else EXIT_FAILURE)
          else EXIT_SUCCESS)
        else EXIT_FAILURE) := by
  obtain ⟨s0, he, ht, mt, me⟩ := main_claimed e h
  obtain ⟨r1, r2, r3, r4, r5, r6, r7, rl, rr, ct, ce⟩ := claimed_run_shape e s0 he
  rw [ht] at ct ce
  exact ⟨r1, r2, r3, r4, r5, r6, r7, rl, rr, by rw [mt, ct]; rfl, by rw [me, ce]⟩

/-! ## The claims -/


theorem issued_of_trace {s t : State} {l : List Xfer} (h : t.trace = s.trace ++ l) :
    issued s t = l := by
  unfold issued
  rw [h, List.drop_left]

theorem wLength_usb_cfg : usb_cfg_req.wLength = 10 := rfl
theorem wLength_mfg_str1 : mfg_str1_req.wLength = 64 := rfl
theorem wLength_mfg_str2 : mfg_str2_req.wLength = 64 := rfl
theorem wLength_prd_str1 : prd_str1_req.wLength = 64 := rfl
theorem wLength_prd_str2 : prd_str2_req.wLength = 64 := rfl
theorem wLength_ser_str (serial : Fin 6 → Int) : (ser_str_req serial).wLength = 64 := rfl
theorem wLength_pin_cfg : pin_cfg_req.wLength = 20 := rfl
theorem wLength_lock : lock_req.wLength = 2 := rfl
theorem wLength_reset : reset_req.wLength = 0 := rfl
theorem wLength_blank : blank_req.wLength = 2 := rfl

theorem bRequest_usb_cfg : usb_cfg_req.bRequest = 0x61 := rfl
theorem bRequest_mfg_str1 : mfg_str1_req.bRequest = 0x63 := rfl
theorem bRequest_mfg_str2 : mfg_str2_req.bRequest = 0x65 := rfl
theorem bRequest_prd_str1 : prd_str1_req.bRequest = 0x67 := rfl
theorem bRequest_prd_str2 : prd_str2_req.bRequest = 0x69 := rfl
theorem bRequest_ser_str (serial : Fin 6 → Int) : (ser_str_req serial).bRequest = 0x6B := rfl
theorem bRequest_pin_cfg : pin_cfg_req.bRequest = 0x6D := rfl
theorem bRequest_lock : lock_req.bRequest = 0x6F := rfl
theorem bRequest_reset : reset_req.bRequest = 0x10 := rfl
theorem bRequest_blank : blank_req.bRequest = 0x6E := rfl

/-- The transfers `configure_device` adds, whatever the transport answers. -/
theorem configure_device_issued (T : Transport) (rand : Nat → Int) (s : State) :
    ∃ r1 r2 r3 r4 r5 r6 r7 rl : Int,
      issued s (configure_device T rand s) =
        [⟨usb_cfg_req, r1⟩, ⟨mfg_str1_req, r2⟩, ⟨mfg_str2_req, r3⟩,
          ⟨prd_str1_req, r4⟩, ⟨prd_str2_req, r5⟩, ⟨ser_str_req (gen_serial rand), r6⟩,
          ⟨pin_cfg_req, r7⟩] ++
          (if s.err_level = EXIT_SUCCESS ∧ r1 = 10 ∧ r2 = 64 ∧ r3 = 64 ∧ r4 = 64 ∧ r5 = 64 ∧
              r6 = 64 ∧ r7 = 20 then [⟨lock_req, rl⟩] else []) := by
  obtain ⟨r1, r2, r3, r4, r5, r6, r7, rl, ht, -⟩ := configure_device_shape T rand s
  rw [List.append_assoc] at ht
  exact ⟨r1, r2, r3, r4, r5, r6, r7, rl, issued_of_trace ht⟩

/-- C1: entered with status success, `configure_device` issues the lock
transfer (request 0x6F) if and only if every one of the seven configuration
writes it issued (0x61, 0x63, 0x65, 0x67, 0x69, 0x6B, 0x6D) returned exactly
its payload length; all seven are issued, so a single failed write keeps the
lock from being issued. -/
theorem C1_lock_iff_all_writes_succeeded (T : Transport) (rand : Nat → Int) (s : State)
    (h : s.err_level = EXIT_SUCCESS) :
    ((∃ x ∈ issued s (configure_device T rand s), x.req.bRequest = 0x6F) ↔
      (∀ x ∈ issued s (configure_device T rand s),
        x.req.bRequest ∈ write_codes → x.ret = x.req.wLength)) ∧
    (∀ c ∈ write_codes, ∃ x ∈ issued s (configure_device T rand s), x.req.bRequest = c) ∧
    ((∃ x ∈ issued s (configure_device T rand s),
        x.req.bRequest ∈ write_codes ∧ x.ret ≠ x.req.wLength) →
      ¬ ∃ x ∈ issued s (configure_device T rand s), x.req.bRequest = 0x6F) := by
  obtain ⟨r1, r2, r3, r4, r5, r6, r7, rl, hi⟩ := configure_device_issued T rand s
  rw [hi]
  by_cases hk : r1 = 10 ∧ r2 = 64 ∧ r3 = 64 ∧ r4 = 64 ∧ r5 = 64 ∧ r6 = 64 ∧ r7 = 20
  · rw [if_pos ⟨h, hk⟩]
    obtain ⟨h1, h2, h3, h4, h5, h6, h7⟩ := hk
    subst h1 h2 h3 h4 h5 h6 h7
    simp [write_codes, bRequest_usb_cfg, bRequest_mfg_str1, bRequest_mfg_str2,
      bRequest_prd_str1, bRequest_prd_str2, bRequest_ser_str, bRequest_pin_cfg, bRequest_lock,
      wLength_usb_cfg, wLength_mfg_str1, wLength_mfg_str2, wLength_prd_str1, wLength_prd_str2,
      wLength_ser_str, wLength_pin_cfg]
  · rw [if_neg (fun hh => hk hh.2)]
    simp only [not_and_or] at hk
    simp [write_codes, bRequest_usb_cfg, bRequest_mfg_str1, bRequest_mfg_str2,
      bRequest_prd_str1, bRequest_prd_str2, bRequest_ser_str, bRequest_pin_cfg, bRequest_lock,
      wLength_usb_cfg, wLength_mfg_str1, wLength_mfg_str2, wLength_prd_str1, wLength_prd_str2,
      wLength_ser_str, wLength_pin_cfg]
    tauto

/-- Witness for C1: from the initial state on a faultless transport the
hypothesis holds and the eight transfers, lock included, are issued. -/
theorem C1_witness :
    initial.err_level = EXIT_SUCCESS ∧
    codes (issued initial (configure_device blank_transport (fun i => i) initial)) =
      [0x61, 0x63, 0x65, 0x67, 0x69, 0x6B, 0x6D, 0x6F] ∧
    ((∃ x ∈ issued initial (configure_device blank_transport (fun i => i) initial),
        x.req.bRequest = 0x6F) ↔
      (∀ x ∈ issued initial (configure_device blank_transport (fun i => i) initial),
        x.req.bRequest ∈ write_codes → x.ret = x.req.wLength)) :=
  ⟨rfl, rfl, (C1_lock_iff_all_writes_succeeded blank_transport (fun i => i) initial rfl).1⟩

/-- C4: whatever the transfers return, `configure_device` issues the seven
register writes once each in the order 0x61, 0x63, 0x65, 0x67, 0x69, 0x6B,
0x6D (USB descriptor fields, manufacturing string halves, product string
halves, serial string, pin configuration), and nothing else except, possibly,
the lock 0x6F after all seven. -/
theorem C4_write_order (T : Transport) (rand : Nat → Int) (s : State) :
    ((issued s (configure_device T rand s)).map (fun x => x.req) =
        config_reqs (gen_serial rand) ∨
      (issued s (configure_device T rand s)).map (fun x => x.req) =
        config_reqs (gen_serial rand) ++ [lock_req]) ∧
    (codes (issued s (configure_device T rand s)) = [0x61, 0x63, 0x65, 0x67, 0x69, 0x6B, 0x6D] ∨
      codes (issued s (configure_device T rand s)) =
        [0x61, 0x63, 0x65, 0x67, 0x69, 0x6B, 0x6D, 0x6F]) ∧
    (config_reqs (gen_serial rand)).map (fun q => q.data) =
      [usb_cfg_buf.bytes, mfg_str1_buf.bytes, mfg_str2_buf.bytes, prd_str1_buf.bytes,
        prd_str2_buf.bytes, (ser_str_buf (gen_serial rand)).bytes, pin_cfg_buf.bytes] := by
  obtain ⟨r1, r2, r3, r4, r5, r6, r7, rl, hi⟩ := configure_device_issued T rand s
  rw [hi]
  refine ⟨?_, ?_, rfl⟩
  · split
    · right; rfl
    · left; rfl
  · split
    · right; rfl
    · left; rfl

/-- C2, the claim as stated fails: the lock-state read returns -1, not 2, the
receive buffer holds 0xFF, 0xFF, and `is_otp_blank` returns true (having set
the status to failure). -/
theorem C2_counterexample :
    (failed_read_transport initial.trace blank_req).ret = -1 ∧
    (is_otp_blank failed_read_transport initial).1 = true ∧
    (is_otp_blank failed_read_transport initial).2.err_level = EXIT_FAILURE ∧
    ¬ ((is_otp_blank failed_read_transport initial).1 = true ↔
        ((failed_read_transport initial.trace blank_req).ret = 2 ∧
          (failed_read_transport initial.trace blank_req).buf 0 = 0xFF ∧
          (failed_read_transport initial.trace blank_req).buf 1 = 0xFF)) := by
  refine ⟨rfl, rfl, rfl, ?_⟩
  intro h
  have h2 := (h.mp rfl).1
  exact absurd h2 (by decide)

/-- C2, amended: `is_otp_blank` issues the lock-state read (request 0x6E) and
returns true if and only if both bytes of the receive buffer equal 0xFF once
the transfer is over, whatever the transfer returned; it sets the status to
failure exactly when the transfer did not return 2, and otherwise leaves it.
Hence, entered with status success, "returned true and the status is still
success" (the gate `main` applies) holds if and only if the transfer returned
exactly 2 bytes and both equal 0xFF. -/
theorem C2_is_otp_blank_amended (T : Transport) (s : State) :
    issued s (is_otp_blank T s).2 = [⟨blank_req, (T s.trace blank_req).ret⟩] ∧
    ((is_otp_blank T s).1 = true ↔
      ((T s.trace blank_req).buf 0 = 0xFF ∧ (T s.trace blank_req).buf 1 = 0xFF)) ∧
    ((T s.trace blank_req).ret ≠ 2 → (is_otp_blank T s).2.err_level = EXIT_FAILURE) ∧
    ((T s.trace blank_req).ret = 2 → (is_otp_blank T s).2.err_level = s.err_level) ∧
    (s.err_level = EXIT_SUCCESS →
      (((is_otp_blank T s).1 = true ∧ (is_otp_blank T s).2.err_level = EXIT_SUCCESS) ↔
        ((T s.trace blank_req).ret = 2 ∧ (T s.trace blank_req).buf 0 = 0xFF ∧
          (T s.trace blank_req).buf 1 = 0xFF))) := by
  rw [is_otp_blank_eq]
  have ht := checked_trace T blank_req "Error: Failed control transfer (0xC0, 0x6E).\n" s
  have he := checked_err_level T blank_req "Error: Failed control transfer (0xC0, 0x6E).\n" s
  rw [wLength_blank] at he
  simp only [Nat.cast_ofNat] at he
  refine ⟨issued_of_trace ht, by simp, ?_, ?_, ?_⟩
  · intro hr
    simp only [he, if_neg hr]
  · intro hr
    simp only [he, if_pos hr]
  · intro hs
    simp only [he, hs]
    by_cases hr : (T s.trace blank_req).ret = 2
    · simp [hr]
    · simp [hr]

/-- Witness for C2 amended: on a faultless transport with a blank device the
read returns 2 and `is_otp_blank` returns true with the status untouched. -/
theorem C2_witness :
    initial.err_level = EXIT_SUCCESS ∧
    (blank_transport initial.trace blank_req).ret = 2 ∧
    (((is_otp_blank blank_transport initial).1 = true ∧
        (is_otp_blank blank_transport initial).2.err_level = EXIT_SUCCESS) ↔
      ((blank_transport initial.trace blank_req).ret = 2 ∧
        (blank_transport initial.trace blank_req).buf 0 = 0xFF ∧
        (blank_transport initial.trace blank_req).buf 1 = 0xFF)) :=
  ⟨rfl, rfl, (C2_is_otp_blank_amended blank_transport initial).2.2.2.2 rfl⟩

/-- The conversion to `char` keeps the value modulo 256 and lands in
-128..127. -/
theorem toChar_spec (c : Int) : -128 ≤ toChar c ∧ toChar c < 128 ∧ toChar c % 256 = c % 256 := by
  unfold toChar
  omega

theorem toChar_eq_upper_Y (c : Int) : toChar c = 89 ↔ c % 256 = 89 := by
  unfold toChar
  omega

theorem toChar_eq_lower_y (c : Int) : toChar c = 121 ↔ c % 256 = 121 := by
  unfold toChar
  omega

/-- C3: on a claimed device the run issues a host-to-device transfer if and
only if the blank-check read (the first transfer of the run) returned exactly
2 bytes, both 0xFF, and the operator answered Y or y; when the read returned
2 bytes that are not both 0xFF, the read is the only transfer of the run
and the exit status is success.  The answer is the value `getc` returned: the
character compared is that value modulo 256, so for every result of `getc`
(-1 for end of input, or 0..255) the answer counts exactly when it is 89 (Y)
or 121 (y); any other answer on a blank device leaves the read as the only
transfer. -/
theorem C3_writes_iff_blank_and_confirmed (e : Env) (h : Claimed e) :
    (main e).trace.head? = some ⟨blank_req, (e.transport [] blank_req).ret⟩ ∧
    hostToDevice blank_req = false ∧
    ((∃ x ∈ (main e).trace, hostToDevice x.req = true) ↔
      ((e.transport [] blank_req).ret = 2 ∧
        (e.transport [] blank_req).buf 0 = 0xFF ∧ (e.transport [] blank_req).buf 1 = 0xFF ∧
        (toChar e.getc = 89 ∨ toChar e.getc = 121))) ∧
    ((e.transport [] blank_req).ret = 2 →
      ¬ ((e.transport [] blank_req).buf 0 = 0xFF ∧ (e.transport [] blank_req).buf 1 = 0xFF) →
      (main e).trace = [⟨blank_req, 2⟩] ∧ (main e).err_level = EXIT_SUCCESS) ∧
    ((∃ x ∈ (main e).trace, hostToDevice x.req = true) ↔
      ((e.transport [] blank_req).ret = 2 ∧
        (e.transport [] blank_req).buf 0 = 0xFF ∧ (e.transport [] blank_req).buf 1 = 0xFF ∧
        (e.getc % 256 = 89 ∨ e.getc % 256 = 121))) ∧
    (-1 ≤ e.getc → e.getc ≤ 255 →
      ((∃ x ∈ (main e).trace, hostToDevice x.req = true) ↔
        ((e.transport [] blank_req).ret = 2 ∧
          (e.transport [] blank_req).buf 0 = 0xFF ∧ (e.transport [] blank_req).buf 1 = 0xFF ∧
          (e.getc = 89 ∨ e.getc = 121)))) ∧
    ((e.transport [] blank_req).ret = 2 →
      ¬ (e.getc % 256 = 89 ∨ e.getc % 256 = 121) →
      (main e).trace = [⟨blank_req, 2⟩] ∧ (main e).err_level = EXIT_SUCCESS) ∧
    (∀ c : Int, -128 ≤ toChar c ∧ toChar c < 128 ∧ toChar c % 256 = c % 256) := by
  obtain ⟨r1, r2, r3, r4, r5, r6, r7, rl, rr, ht, he⟩ := main_shape e h
  have hb : hostToDevice blank_req = false := rfl
  have hu : hostToDevice usb_cfg_req = true := rfl
  have key : (∃ x ∈ (main e).trace, hostToDevice x.req = true) ↔
      ((e.transport [] blank_req).ret = 2 ∧
        (e.transport [] blank_req).buf 0 = 0xFF ∧ (e.transport [] blank_req).buf 1 = 0xFF ∧
        (toChar e.getc = 89 ∨ toChar e.getc = 121)) := by
    rw [ht]
    by_cases hg : (e.transport [] blank_req).ret = 2 ∧
        (e.transport [] blank_req).buf 0 = 0xFF ∧ (e.transport [] blank_req).buf 1 = 0xFF ∧
        (toChar e.getc = 89 ∨ toChar e.getc = 121)
    · rw [if_pos hg]
      exact ⟨fun _ => hg, fun _ => ⟨⟨usb_cfg_req, r1⟩, by simp, hu⟩⟩
    · rw [if_neg hg]
      constructor
      · rintro ⟨x, hx, hxo⟩
        simp only [List.mem_singleton] at hx
        subst hx
        rw [hb] at hxo
        exact absurd hxo (by decide)
      · intro hh; exact absurd hh hg
  have conf : (toChar e.getc = 89 ∨ toChar e.getc = 121) ↔
      (e.getc % 256 = 89 ∨ e.getc % 256 = 121) := by
    rw [toChar_eq_upper_Y, toChar_eq_lower_y]
  refine ⟨by rw [ht]; rfl, hb, key, ?_, ?_, ?_, ?_, toChar_spec⟩
  · intro hr hn
    rw [ht, he, if_neg (fun hh => hn ⟨hh.2.1, hh.2.2.1⟩), if_pos hr,
      if_neg (fun hh => hn ⟨hh.1, hh.2.1⟩), hr]
    exact ⟨rfl, rfl⟩
  · rw [key, conf]
  · intro h1 h2
    rw [key, conf]
    have e1 : e.getc % 256 = 89 ↔ e.getc = 89 := by omega
    have e2 : e.getc % 256 = 121 ↔ e.getc = 121 := by omega
    rw [e1, e2]
  · intro hr hn
    rw [← conf] at hn
    rw [ht, he, if_neg (fun hh => hn hh.2.2.2), if_pos hr, if_neg (fun hh => hn hh.2.2), hr]
    exact ⟨rfl, rfl⟩

/-- Witness for C3.  Scenario B: a claimed device whose lock bytes read
0x00, 0x01, the operator answering y; only the read is issued and the exit
status is success.  A blank device and the answer n: no host-to-device
transfer, the configuration is cancelled.  A blank device and the answer y:
the ten transfers of a full run. -/
theorem C3_witness :
    Claimed (claimed_env locked_transport 121) ∧
    (main (claimed_env locked_transport 121)).trace = [⟨blank_req, 2⟩] ∧
    (main (claimed_env locked_transport 121)).err_level = EXIT_SUCCESS ∧
    (main (claimed_env locked_transport 121)).stdout = ["Device is not blank.\n"] ∧
    (¬ ∃ x ∈ (main (claimed_env blank_transport 110)).trace, hostToDevice x.req = true) ∧
    (main (claimed_env blank_transport 110)).trace = [⟨blank_req, 2⟩] ∧
    (main (claimed_env blank_transport 110)).stdout =
      ["Device is blank.\nDo you wish to configure it? [y/N] ",
        "Device configuration canceled.\n"] ∧
    (∃ x ∈ (main (claimed_env blank_transport 121)).trace, hostToDevice x.req = true) ∧
    codes (main (claimed_env blank_transport 121)).trace =
      [0x6E, 0x61, 0x63, 0x65, 0x67, 0x69, 0x6B, 0x6D, 0x6F, 0x10] ∧
    codes (main (claimed_env blank_transport 89)).trace =
      [0x6E, 0x61, 0x63, 0x65, 0x67, 0x69, 0x6B, 0x6D, 0x6F, 0x10] :=
  have hc : Claimed (claimed_env locked_transport 121) := ⟨by decide, rfl, rfl, rfl⟩
  have hw := (C3_writes_iff_blank_and_confirmed (claimed_env locked_transport 121) hc).2.2.2.1
    rfl (by decide)
  have hn := (C3_writes_iff_blank_and_confirmed (claimed_env blank_transport 110)
    ⟨by decide, rfl, rfl, rfl⟩).2.2.2.2.2.1 (by decide) (by decide)
  have hy := (C3_writes_iff_blank_and_confirmed (claimed_env blank_transport 121)
    ⟨by decide, rfl, rfl, rfl⟩).2.2.2.2.2.1 (by decide) (by decide)
  ⟨hc, hw.1, hw.2, rfl, fun hx => absurd (hn.mp hx).2.2.2 (by decide), rfl, rfl,
    hy.mpr ⟨rfl, rfl, rfl, Or.inr rfl⟩, rfl, rfl⟩

/-- Without a claimed device `main` makes no control transfer. -/
theorem main_unclaimed (e : Env) (h : ¬ Claimed e) : (main e).trace = [] := by
  unfold main
  by_cases h1 : e.argc < 2
  · rw [if_pos h1]; rfl
  · rw [if_neg h1]
    by_cases h2 : e.libusb_init ≠ 0
    · simp only [if_pos h2]; rfl
    · simp only [if_neg h2]
      by_cases h3 : e.devhandle_null = true
      · simp only [h3, if_true]; rfl
      · simp only [h3, Bool.false_eq_true, if_false]
        by_cases h4 : e.claim_interface ≠ 0
        · simp only [if_pos h4]
          by_cases hk : e.kernel_driver_active ≠ 0
          · simp only [if_pos hk, if_true]; rfl
          · simp only [if_neg hk, Bool.false_eq_true, if_false]; rfl
        · exfalso
          apply h
          refine ⟨not_lt.mp h1, not_not.mp h2, ?_, not_not.mp h4⟩
          simpa using h3

/-- Every transfer of a run carries one of the ten requests of the program. -/
theorem main_trace_reqs (e : Env) :
    ∀ x ∈ (main e).trace, x.req ∈ all_reqs (gen_serial e.rand) := by
  by_cases h : Claimed e
  · obtain ⟨r1, r2, r3, r4, r5, r6, r7, rl, rr, ht, -⟩ := main_shape e h
    rw [ht]
    intro x hx
    split at hx
    · split at hx
      · simp only [List.mem_cons, List.cons_append, List.nil_append, List.mem_singleton,
          List.not_mem_nil, or_false] at hx
        rcases hx with rfl | rfl | rfl | rfl | rfl | rfl | rfl | rfl | rfl | rfl <;>
          simp [all_reqs]
      · simp only [List.mem_cons, List.cons_append, List.nil_append, List.mem_singleton,
          List.not_mem_nil, or_false, List.append_nil] at hx
        rcases hx with rfl | rfl | rfl | rfl | rfl | rfl | rfl | rfl | rfl <;>
          simp [all_reqs]
    · simp only [List.mem_singleton] at hx
      subst hx
      simp [all_reqs]
  · rw [main_unclaimed e h]
    intro x hx
    exact absurd hx (List.not_mem_nil x)

/-- C5: every control transfer a run can issue matches its row of the chip
register map: index 0x0000 throughout; the blank-check read 0x6E
device-to-host with value 0x0000 and 2 bytes; the reset 0x10 host-to-device
with value 0x0000 and no payload; the other eight host-to-device with value
0xA5F1 and payloads of 2 (0x6F), 10 (0x61), 64 (0x63, 0x65, 0x67, 0x69, 0x6B)
and 20 (0x6D) bytes, the buffer sent having exactly the declared length and
the lock payload being 0x00, 0x00.  All ten rows occur in a successful run. -/
theorem C5_transfers_match_register_map :
    (∀ (e : Env), ∀ x ∈ (main e).trace,
      conforms x.req = true ∧ x.req.wIndex = 0x0000 ∧
      (hostToDevice x.req = true → x.req.data.length = x.req.wLength) ∧
      (x.req.bRequest = 0x6F → x.req.data = [0x00, 0x00])) ∧
    (∀ serial : Fin 6 → Int, (all_reqs serial).map
        (fun q => (q.bRequest, !hostToDevice q, q.wValue, q.wIndex, q.wLength)) =
      [(0x6E, true, 0x0000, 0x0000, 2), (0x61, false, 0xA5F1, 0x0000, 10),
        (0x63, false, 0xA5F1, 0x0000, 64), (0x65, false, 0xA5F1, 0x0000, 64),
        (0x67, false, 0xA5F1, 0x0000, 64), (0x69, false, 0xA5F1, 0x0000, 64),
        (0x6B, false, 0xA5F1, 0x0000, 64), (0x6D, false, 0xA5F1, 0x0000, 20),
        (0x6F, false, 0xA5F1, 0x0000, 2), (0x10, false, 0x0000, 0x0000, 0)]) ∧
    (∀ row ∈ spec_register_map,
      ∃ x ∈ (main (claimed_env blank_transport 89)).trace,
        agrees x.req row = true ∧ x.ret = x.req.wLength) := by
  refine ⟨?_, fun serial => ?_, by decide⟩
  rotate_left
  · simp [all_reqs, hostToDevice, blank_req, usb_cfg_req, mfg_str1_req, mfg_str2_req,
      prd_str1_req, prd_str2_req, ser_str_req, pin_cfg_req, lock_req, reset_req, cArray,
      usb_cfg_buf, mfg_str1_buf, mfg_str2_buf, prd_str1_buf, prd_str2_buf, ser_str_buf,
      pin_cfg_buf]
  intro e x hx
  have hq := main_trace_reqs e x hx
  generalize x.req = q at hq
  simp only [all_reqs, List.mem_cons, List.mem_singleton, List.not_mem_nil, or_false] at hq
  rcases hq with rfl | rfl | rfl | rfl | rfl | rfl | rfl | rfl | rfl | rfl
  · exact ⟨rfl, rfl, fun h => absurd h (by decide), fun h => absurd h (by decide)⟩
  · exact ⟨rfl, rfl, fun _ => rfl, fun h => absurd h (by decide)⟩
  · exact ⟨rfl, rfl, fun _ => rfl, fun h => absurd h (by decide)⟩
  · exact ⟨rfl, rfl, fun _ => rfl, fun h => absurd h (by decide)⟩
  · exact ⟨rfl, rfl, fun _ => rfl, fun h => absurd h (by decide)⟩
  · exact ⟨rfl, rfl, fun _ => rfl, fun h => absurd h (by decide)⟩
  · refine ⟨?_, rfl, fun _ => rfl, fun h => ?_⟩
    rotate_left
    · rw [bRequest_ser_str] at h
      exact absurd h (by decide)
    simp [conforms, spec_register_map, agrees, hostToDevice, ser_str_req, ser_str_buf, cArray]
  · exact ⟨rfl, rfl, fun _ => rfl, fun h => absurd h (by decide)⟩
  · exact ⟨rfl, rfl, fun _ => rfl, fun _ => rfl⟩
  · exact ⟨rfl, rfl, fun _ => rfl, fun h => absurd h (by decide)⟩

/-- The byte a `char` becomes is its value modulo 256. -/
theorem toUChar_cast (c : Int) : ((toUChar c : Nat) : Int) = c % 256 := by
  unfold toUChar
  exact Int.toNat_of_nonneg (Int.emod_nonneg c (by decide))

/-- C6: for every 6-character serial, the image `set_ser_str` sends is 64
bytes long; its bytes 14 to 25 are the six character bytes, each followed by
0x00 (their UTF-16LE encoding); the 14 bytes before are the fixed header
0x1A, 0x03 and "IU2-00" in UTF-16LE, and the 38 bytes after are zero,
whatever the serial.  The character byte at offset 14 + 2i is the value of
`serial[i]` modulo 256: the value itself for 0..255, the value plus 256 for a
negative `char`; so two serials of `char` values give the same image only if
they are equal. -/
theorem C6_serial_image (serial : Fin 6 → Int) :
    (ser_str_buf serial).size = 64 ∧
    (ser_str_buf serial).bytes.length = 64 ∧
    ((ser_str_buf serial).bytes.drop 14).take 12 =
      (List.ofFn serial).flatMap (fun c => [toUChar c, 0x00]) ∧
    (ser_str_buf serial).bytes.take 14 =
      [0x1A, 0x03] ++ utf16le (code_units "IU2-00") ∧
    (ser_str_buf serial).bytes.take 14 =
      [0x1A, 0x03, 0x49, 0x00, 0x55, 0x00, 0x32, 0x00, 0x2D, 0x00, 0x30, 0x00, 0x30, 0x00] ∧
    (ser_str_buf serial).bytes.drop 26 = List.replicate 38 0x00 ∧
    (∀ (T : Transport) (s : State),
      (issued s (set_ser_str T serial s)).map (fun x => x.req.data) =
        [(ser_str_buf serial).bytes]) ∧
    (∀ i : Fin 6,
      (((ser_str_buf serial).bytes.getD (14 + 2 * i.val) 0 : Nat) : Int) = serial i % 256 ∧
      (ser_str_buf serial).bytes.getD (15 + 2 * i.val) 0 = 0x00) ∧
    (∀ i : Fin 6, 0 ≤ serial i → serial i < 256 →
      (((ser_str_buf serial).bytes.getD (14 + 2 * i.val) 0 : Nat) : Int) = serial i) ∧
    (∀ i : Fin 6, -128 ≤ serial i → serial i < 0 →
      (((ser_str_buf serial).bytes.getD (14 + 2 * i.val) 0 : Nat) : Int) = serial i + 256) ∧
    (∀ other : Fin 6 → Int, (∀ i, -128 ≤ serial i ∧ serial i < 128) →
      (∀ i, -128 ≤ other i ∧ other i < 128) →
      (ser_str_buf serial).bytes = (ser_str_buf other).bytes → serial = other) ∧
    ((ser_str_buf abc123).bytes.drop 14).take 12 =
      [0x41, 0x00, 0x42, 0x00, 0x43, 0x00, 0x31, 0x00, 0x32, 0x00, 0x33, 0x00] ∧
    (ser_str_buf (fun _ => -13)).bytes.getD 14 0 = 0xF3 := by
  have reg : ∀ (f : Fin 6 → Int) (i : Fin 6),
      (((ser_str_buf f).bytes.getD (14 + 2 * i.val) 0 : Nat) : Int) = f i % 256 ∧
      (ser_str_buf f).bytes.getD (15 + 2 * i.val) 0 = 0x00 := by
    intro f i
    fin_cases i
    · exact ⟨toUChar_cast (f 0), rfl⟩
    · exact ⟨toUChar_cast (f 1), rfl⟩
    · exact ⟨toUChar_cast (f 2), rfl⟩
    · exact ⟨toUChar_cast (f 3), rfl⟩
    · exact ⟨toUChar_cast (f 4), rfl⟩
    · exact ⟨toUChar_cast (f 5), rfl⟩
  refine ⟨rfl, rfl, rfl, rfl, rfl, rfl, ?_, reg serial, ?_, ?_, ?_, by decide, by decide⟩
  · intro T s
    rw [set_ser_str_eq, issued_of_trace (checked_trace T _ _ s)]
    rfl
  · intro i h0 h1
    rw [(reg serial i).1]
    omega
  · intro i h0 h1
    rw [(reg serial i).1]
    omega
  · intro other hs ho hEq
    funext i
    have a := (reg serial i).1
    have b := (reg other i).1
    rw [hEq, b] at a
    have := hs i
    have := ho i
    omega

theorem serial_char_of_nonneg (r : Int) (h : 0 ≤ r) :
    serial_char r = if r % 36 < 10 then r % 36 + 48 else r % 36 + 55 := by
  unfold serial_char toChar
  rw [Int.tmod_eq_emod h (by decide)]
  simp only []
  split <;> omega

/-- The characters generated from chosen residues are the chosen symbols. -/
theorem gen_serial_reaches (t : Fin 6 → Int) (ht : ∀ i, in_alphabet (t i)) :
    ∃ rand : Nat → Int, (∀ k, 0 ≤ rand k ∧ rand k < 36) ∧ gen_serial rand = t := by
  have pick : ∀ c : Int, in_alphabet c →
      (0 ≤ (if c ≤ 57 then c - 48 else c - 55) ∧ (if c ≤ 57 then c - 48 else c - 55) < 36) ∧
      serial_char (if c ≤ 57 then c - 48 else c - 55) = c := by
    intro c hc
    unfold in_alphabet at hc
    have hr : 0 ≤ (if c ≤ 57 then c - 48 else c - 55) := by split <;> omega
    refine ⟨⟨hr, by split <;> omega⟩, ?_⟩
    rw [serial_char_of_nonneg _ hr]
    split <;> split <;> omega
  refine ⟨fun k => if t ⟨k % 6, Nat.mod_lt k (by decide)⟩ ≤ 57
      then t ⟨k % 6, Nat.mod_lt k (by decide)⟩ - 48
      else t ⟨k % 6, Nat.mod_lt k (by decide)⟩ - 55, fun k => (pick _ (ht _)).1, ?_⟩
  funext i
  have hi : (⟨i.val % 6, Nat.mod_lt i.val (by decide)⟩ : Fin 6) = i :=
    Fin.ext (Nat.mod_eq_of_lt i.isLt)
  show serial_char (if t ⟨i.val % 6, _⟩ ≤ 57 then t ⟨i.val % 6, _⟩ - 48
    else t ⟨i.val % 6, _⟩ - 55) = t i
  rw [hi]
  exact (pick _ (ht i)).2

/-- C7: for every non-negative result `r` of the random source the serial
character made from `r % 36` (digit offset 48 below 10, letter offset 55
otherwise) lies in the alphabet 0-9, A-Z; on the residues 0..35 the map is
injective and reaches each of the 36 symbols.  The i-th generated character
is the one made from the i-th result of `rand()`, it is what the 0x6B request
of `configure_device` carries, the six characters generated from non-negative
results all lie in the alphabet, two results give the same character exactly
when they have the same residue, and every serial over the alphabet is
generated by some sequence of results. -/
theorem C7_serial_alphabet :
    (∀ r : Int, 0 ≤ r → in_alphabet (serial_char r)) ∧
    (∀ a b : Int, 0 ≤ a → a < 36 → 0 ≤ b → b < 36 → serial_char a = serial_char b → a = b) ∧
    (∀ c : Int, in_alphabet c → ∃ r : Int, 0 ≤ r ∧ r < 36 ∧ serial_char r = c) ∧
    (∀ rand : Nat → Int, (∀ i, 0 ≤ rand i) → ∀ i : Fin 6, in_alphabet (gen_serial rand i)) ∧
    (∀ r : Int, 0 ≤ r →
      serial_char r = (if r % 36 < 10 then r % 36 + 48 else r % 36 + 55)) ∧
    (∀ (rand : Nat → Int) (i : Fin 6), gen_serial rand i = serial_char (rand i.val)) ∧
    (∀ (rand : Nat → Int) (i : Fin 6), 0 ≤ rand i.val →
      gen_serial rand i =
        (if rand i.val % 36 < 10 then rand i.val % 36 + 48 else rand i.val % 36 + 55)) ∧
    (∀ (rand other : Nat → Int) (i : Fin 6), 0 ≤ rand i.val → 0 ≤ other i.val →
      (gen_serial rand i = gen_serial other i ↔ rand i.val % 36 = other i.val % 36)) ∧
    (∀ t : Fin 6 → Int, (∀ i, in_alphabet (t i)) →
      ∃ rand : Nat → Int, (∀ k, 0 ≤ rand k ∧ rand k < 36) ∧ gen_serial rand = t) ∧
    (∀ (T : Transport) (rand : Nat → Int) (s : State),
      ∃ x ∈ issued s (configure_device T rand s),
        x.req.bRequest = 0x6B ∧ x.req.data = (ser_str_buf (gen_serial rand)).bytes) := by
  have key : ∀ r : Int, 0 ≤ r → in_alphabet (serial_char r) := by
    intro r hr
    rw [serial_char_of_nonneg r hr]
    unfold in_alphabet
    split <;> omega
  refine ⟨key, ?_, ?_, fun rand hr i => key _ (hr _), serial_char_of_nonneg,
    fun _ _ => rfl, fun rand i hr => serial_char_of_nonneg _ hr, ?_, gen_serial_reaches, ?_⟩
  · intro a b ha ha2 hb hb2 hab
    rw [serial_char_of_nonneg a ha, serial_char_of_nonneg b hb] at hab
    split at hab <;> split at hab <;> omega
  · intro c hc
    unfold in_alphabet at hc
    rcases hc with hc | hc
    · refine ⟨c - 48, by omega, by omega, ?_⟩
      rw [serial_char_of_nonneg _ (by omega)]
      split <;> omega
    · refine ⟨c - 55, by omega, by omega, ?_⟩
      rw [serial_char_of_nonneg _ (by omega)]
      split <;> omega
  · intro rand other i hr ho
    show serial_char (rand i.val) = serial_char (other i.val) ↔ _
    rw [serial_char_of_nonneg _ hr, serial_char_of_nonneg _ ho]
    split <;> split <;> omega
  · intro T rand s
    obtain ⟨r1, r2, r3, r4, r5, r6, r7, rl, hi⟩ := configure_device_issued T rand s
    rw [hi]
    exact ⟨⟨ser_str_req (gen_serial rand), r6⟩, by simp, rfl, rfl⟩

/-- Witness for C7: a sample result of `rand()`, the characters of the
residues 0, 9, 10 and 35, and the serials generated from two sequences of
results. -/
theorem C7_witness :
    in_alphabet (serial_char 1804289383) ∧ serial_char 1804289383 = 74 ∧
    serial_char 0 = 48 ∧ serial_char 9 = 57 ∧ serial_char 10 = 65 ∧ serial_char 35 = 90 ∧
    List.ofFn (gen_serial (fun i => i)) = [48, 49, 50, 51, 52, 53] ∧
    List.ofFn (gen_serial (fun i => 7 * i + 1000)) = [83, 90, 54, 68, 75, 82] ∧
    (∀ i : Fin 6, in_alphabet (gen_serial (fun i => 7 * i + 1000) i)) :=
  ⟨C7_serial_alphabet.1 1804289383 (by decide), by decide, by decide, by decide, by decide,
    by decide, by decide, by decide,
    C7_serial_alphabet.2.2.2.1 (fun i => 7 * i + 1000)
      (fun i => by show (0 : Int) ≤ 7 * (i : Int) + 1000; omega)⟩

theorem toUChar_ascii (c : Int) (h0 : 0 ≤ c) (h1 : c < 128) : toUChar c = c.toNat := by
  unfold toUChar
  rw [Int.emod_eq_of_lt h0 (by omega)]

/-- C10: each string register image is a well-formed USB string descriptor
of the text in its comment: byte 0 is 2 + 2 * (number of characters), byte 1
is 0x03, then the UTF-16LE code units, then zeros up to 64 bytes; for
"Bloguetrónica" (13 characters, length byte 0x1C), "ITUSB2 USB Test Switch"
(22 characters, 0x2E) and, for every 6-character ASCII serial, "IU2-00"
followed by the serial (12 characters, 0x1A).  The characters of the two
fixed texts lie below U+D800, so each is one code unit. -/
theorem C10_string_descriptors (serial : Fin 6 → Int)
    (h : ∀ i, 0 ≤ serial i ∧ serial i < 128) :
    (mfg_str1_buf.bytes = string_image (code_units "Bloguetrónica") ∧
      "Bloguetrónica".length = 13 ∧ mfg_str1_buf.bytes.head? = some 0x1C ∧
      mfg_str1_buf.bytes.length = 64 ∧ (∀ u ∈ code_units "Bloguetrónica", u < 0xD800)) ∧
    (prd_str1_buf.bytes = string_image (code_units "ITUSB2 USB Test Switch") ∧
      "ITUSB2 USB Test Switch".length = 22 ∧ prd_str1_buf.bytes.head? = some 0x2E ∧
      prd_str1_buf.bytes.length = 64 ∧
      (∀ u ∈ code_units "ITUSB2 USB Test Switch", u < 0xD800)) ∧
    ((ser_str_buf serial).bytes =
        string_image (code_units "IU2-00" ++ (List.ofFn serial).map Int.toNat) ∧
      (code_units "IU2-00" ++ (List.ofFn serial).map Int.toNat).length = 12 ∧
      (ser_str_buf serial).bytes.head? = some 0x1A ∧
      (ser_str_buf serial).bytes.length = 64) := by
  refine ⟨⟨by decide, by decide, rfl, rfl, by decide⟩,
    ⟨by decide, by decide, rfl, rfl, by decide⟩, ?_, rfl, rfl, rfl⟩
  have e0 := toUChar_ascii (serial 0) (h 0).1 (h 0).2
  have e1 := toUChar_ascii (serial 1) (h 1).1 (h 1).2
  have e2 := toUChar_ascii (serial 2) (h 2).1 (h 2).2
  have e3 := toUChar_ascii (serial 3) (h 3).1 (h 3).2
  have e4 := toUChar_ascii (serial 4) (h 4).1 (h 4).2
  have e5 := toUChar_ascii (serial 5) (h 5).1 (h 5).2
  have b0 : (serial 0).toNat < 128 := by have := h 0; omega
  have b1 : (serial 1).toNat < 128 := by have := h 1; omega
  have b2 : (serial 2).toNat < 128 := by have := h 2; omega
  have b3 : (serial 3).toNat < 128 := by have := h 3; omega
  have b4 : (serial 4).toNat < 128 := by have := h 4; omega
  have b5 : (serial 5).toNat < 128 := by have := h 5; omega
  have m : ∀ n : Nat, n < 128 → n % 256 = n ∧ n / 256 = 0 := by
    intro n hn; omega
  show (cArray 64 _).bytes = _
  rw [e0, e1, e2, e3, e4, e5]
  show _ = [2 + 2 * 12, 0x03] ++ utf16le [0x49, 0x55, 0x32, 0x2D, 0x30, 0x30,
    (serial 0).toNat, (serial 1).toNat, (serial 2).toNat, (serial 3).toNat,
    (serial 4).toNat, (serial 5).toNat] ++ List.replicate (64 - (2 + 2 * 12)) 0
  simp only [utf16le, List.flatMap_cons, List.flatMap_nil, (m _ b0).1, (m _ b0).2,
    (m _ b1).1, (m _ b1).2, (m _ b2).1, (m _ b2).2, (m _ b3).1, (m _ b3).2, (m _ b4).1,
    (m _ b4).2, (m _ b5).1, (m _ b5).2]
  rfl

/-- Witness for C10: the serial "ABC123" is ASCII and its image is the
descriptor of "IU2-00ABC123". -/
theorem C10_witness :
    (∀ i, 0 ≤ abc123 i ∧ abc123 i < 128) ∧
    (ser_str_buf abc123).bytes =
      string_image (code_units "IU2-00" ++ (List.ofFn abc123).map Int.toNat) ∧
    code_units "IU2-00" ++ (List.ofFn abc123).map Int.toNat = code_units "IU2-00ABC123" :=
  ⟨by decide, (C10_string_descriptors abc123 (by decide)).2.2.1, by decide⟩

theorem checked_keeps_failure (T : Transport) (req : ControlRequest) (msg : String) (s : State)
    (h : s.err_level ≠ EXIT_SUCCESS) : (checked T req msg s).err_level ≠ EXIT_SUCCESS := by
  rw [checked_err_level]
  split
  · exact h
  · decide

theorem configure_device_keeps_failure (T : Transport) (rand : Nat → Int) (s : State)
    (h : s.err_level ≠ EXIT_SUCCESS) :
    (configure_device T rand s).err_level ≠ EXIT_SUCCESS := by
  obtain ⟨r1, r2, r3, r4, r5, r6, r7, rl, -, he⟩ := configure_device_shape T rand s
  rw [he, if_neg h]
  split
  · exact h
  · decide

theorem claimed_run_keeps_failure (e : Env) (s : State) (h : s.err_level ≠ EXIT_SUCCESS) :
    (claimed_run e s).err_level ≠ EXIT_SUCCESS := by
  rw [claimed_run_eq]
  have hb := checked_keeps_failure e.transport blank_req
    "Error: Failed control transfer (0xC0, 0x6E).\n" s h
  generalize checked e.transport blank_req _ s = sb at hb ⊢
  have c3 : ¬ (sb.err_level == EXIT_SUCCESS) = true := by simpa using hb
  have c1 : ¬ (((e.transport s.trace blank_req).buf 0 == 0xFF &&
      (e.transport s.trace blank_req).buf 1 == 0xFF) && sb.err_level == EXIT_SUCCESS) = true := by
    simp [hb]
  rw [if_neg c1, if_neg c3]
  exact hb

/-- C8: no operation of the program takes the status from failure back to
success; on a claimed device the exit status is failure (1) if and only if
some transfer issued in the run returned a value other than its requested
length, and success (0) if and only if none did; and when the
pin-configuration write (0x6D) returns anything but 20 (19, say), no lock is
issued and the exit status is 1. -/
theorem C8_run_status (e : Env) (h : Claimed e) :
    (∀ (T : Transport) (rand : Nat → Int) (serial : Fin 6 → Int) (s : State),
      s.err_level ≠ EXIT_SUCCESS →
        (is_otp_blank T s).2.err_level ≠ EXIT_SUCCESS ∧
        (set_usb_cfg T s).err_level ≠ EXIT_SUCCESS ∧
        (set_mfg_str1 T s).err_level ≠ EXIT_SUCCESS ∧
        (set_mfg_str2 T s).err_level ≠ EXIT_SUCCESS ∧
        (set_prd_str1 T s).err_level ≠ EXIT_SUCCESS ∧
        (set_prd_str2 T s).err_level ≠ EXIT_SUCCESS ∧
        (set_ser_str T serial s).err_level ≠ EXIT_SUCCESS ∧
        (set_pin_cfg T s).err_level ≠ EXIT_SUCCESS ∧
        (lock_otp T s).err_level ≠ EXIT_SUCCESS ∧
        (reset T s).err_level ≠ EXIT_SUCCESS ∧
        (configure_device T rand s).err_level ≠ EXIT_SUCCESS ∧
        (claimed_run e s).err_level ≠ EXIT_SUCCESS) ∧
    ((main e).err_level = EXIT_FAILURE ↔ ∃ x ∈ (main e).trace, x.ret ≠ x.req.wLength) ∧
    ((main e).err_level = EXIT_SUCCESS ↔ ∀ x ∈ (main e).trace, x.ret = x.req.wLength) ∧
    ((∃ x ∈ (main e).trace, x.req.bRequest = 0x6D ∧ x.ret ≠ 20) →
      (∀ x ∈ (main e).trace, x.req.bRequest ≠ 0x6F) ∧ (main e).err_level = EXIT_FAILURE) := by
  refine ⟨?_, ?_⟩
  · intro T rand serial s hs
    rw [is_otp_blank_eq, set_usb_cfg_eq, set_mfg_str1_eq, set_mfg_str2_eq, set_prd_str1_eq,
      set_prd_str2_eq, set_ser_str_eq, set_pin_cfg_eq, lock_otp_eq, reset_eq]
    exact ⟨checked_keeps_failure T _ _ s hs, checked_keeps_failure T _ _ s hs,
      checked_keeps_failure T _ _ s hs, checked_keeps_failure T _ _ s hs,
      checked_keeps_failure T _ _ s hs, checked_keeps_failure T _ _ s hs,
      checked_keeps_failure T _ _ s hs, checked_keeps_failure T _ _ s hs,
      checked_keeps_failure T _ _ s hs, checked_keeps_failure T _ _ s hs,
      configure_device_keeps_failure T rand s hs, claimed_run_keeps_failure e s hs⟩
  · obtain ⟨r1, r2, r3, r4, r5, r6, r7, rl, rr, ht, he⟩ := main_shape e h
    rw [ht, he]
    generalize e.transport [] blank_req = o
    by_cases hr : o.ret = 2
    · by_cases hg : o.buf 0 = 0xFF ∧ o.buf 1 = 0xFF ∧ (toChar e.getc = 89 ∨ toChar e.getc = 121)
      · have hg2 : o.ret = 2 ∧ o.buf 0 = 0xFF ∧ o.buf 1 = 0xFF ∧
            (toChar e.getc = 89 ∨ toChar e.getc = 121) := ⟨hr, hg⟩
        rw [if_pos hr, if_pos hg, if_pos hg2]
        by_cases hk : r1 = 10 ∧ r2 = 64 ∧ r3 = 64 ∧ r4 = 64 ∧ r5 = 64 ∧ r6 = 64 ∧ r7 = 20
        · rw [if_pos hk]
          obtain ⟨h1, h2, h3, h4, h5, h6, h7⟩ := hk
          subst h1 h2 h3 h4 h5 h6 h7
          by_cases hl : rl = 2 <;> by_cases h0 : rr = 0 <;>
            simp [hr, hl, h0, wLength_blank, wLength_usb_cfg, wLength_mfg_str1,
              wLength_mfg_str2, wLength_prd_str1, wLength_prd_str2, wLength_ser_str,
              wLength_pin_cfg, wLength_lock, wLength_reset, bRequest_blank, bRequest_usb_cfg,
              bRequest_mfg_str1, bRequest_mfg_str2, bRequest_prd_str1, bRequest_prd_str2,
              bRequest_ser_str, bRequest_pin_cfg, bRequest_lock, bRequest_reset]
        · rw [if_neg hk, if_neg (fun hh => hk hh.1)]
          simp only [not_and_or] at hk
          simp only [List.append_nil, List.cons_append, List.nil_append, List.mem_cons,
            List.mem_singleton, List.not_mem_nil, or_false, exists_eq_or_imp, forall_eq_or_imp,
            exists_eq_left, forall_eq, wLength_blank, wLength_usb_cfg, wLength_mfg_str1,
            wLength_mfg_str2, wLength_prd_str1, wLength_prd_str2, wLength_ser_str,
            wLength_pin_cfg, wLength_reset, bRequest_blank, bRequest_usb_cfg,
            bRequest_mfg_str1, bRequest_mfg_str2, bRequest_prd_str1, bRequest_prd_str2,
            bRequest_ser_str, bRequest_pin_cfg, bRequest_reset, Nat.cast_ofNat]
          refine ⟨⟨fun _ => ?_, fun _ => trivial⟩,
            ⟨fun hh => absurd hh (by decide), fun hh => ?_⟩, fun _ => ⟨by decide, trivial⟩⟩
          · tauto
          · tauto
      · have hg2 : ¬ (o.ret = 2 ∧ o.buf 0 = 0xFF ∧ o.buf 1 = 0xFF ∧
            (toChar e.getc = 89 ∨ toChar e.getc = 121)) := fun hh => hg hh.2
        rw [if_pos hr, if_neg hg, if_neg hg2]
        simp [hr, wLength_blank, bRequest_blank]
    · have hg2 : ¬ (o.ret = 2 ∧ o.buf 0 = 0xFF ∧ o.buf 1 = 0xFF ∧
          (toChar e.getc = 89 ∨ toChar e.getc = 121)) := fun hh => hr hh.1
      rw [if_neg hr, if_neg hg2]
      simp [hr, wLength_blank, bRequest_blank]

/-- Witness for C8 (scenario C): a blank claimed device, the operator
confirming, the pin-configuration write returning 19 of 20: the seven writes
and the reset are issued, the lock is not, and the exit status is 1. -/
theorem C8_witness :
    Claimed (claimed_env short_pin_transport 121) ∧
    (main (claimed_env short_pin_transport 121)).trace.map (fun x => (x.req.bRequest, x.ret)) =
      [(0x6E, 2), (0x61, 10), (0x63, 64), (0x65, 64), (0x67, 64), (0x69, 64), (0x6B, 64),
        (0x6D, 19), (0x10, 0)] ∧
    (∀ x ∈ (main (claimed_env short_pin_transport 121)).trace, x.req.bRequest ≠ 0x6F) ∧
    (main (claimed_env short_pin_transport 121)).err_level = EXIT_FAILURE :=
  have hc : Claimed (claimed_env short_pin_transport 121) := ⟨by decide, rfl, rfl, rfl⟩
  ⟨hc, by decide,
    (C8_run_status (claimed_env short_pin_transport 121) hc).2.2.2 (by decide)⟩

/-- C9: once the operator has confirmed on a blank claimed device, the run is
the blank-check read, the configuration sequence (the seven writes, then the
lock or not) and last the reset, request 0x10 with an empty payload, issued
exactly once whatever the writes and the lock returned; a reset that does not
return 0 makes the exit status failure.  The function `reset` issues its
transfer from any state, whatever the status. -/
theorem C9_reset_after_configuration (e : Env) (h : Claimed e)
    (hb : (e.transport [] blank_req).ret = 2 ∧ (e.transport [] blank_req).buf 0 = 0xFF ∧
      (e.transport [] blank_req).buf 1 = 0xFF)
    (hc : toChar e.getc = 89 ∨ toChar e.getc = 121) :
    (∃ (cfg : List Xfer) (rr : Int),
      (main e).trace = ⟨blank_req, 2⟩ :: (cfg ++ [⟨reset_req, rr⟩]) ∧
      (cfg.map (fun x => x.req) = config_reqs (gen_serial e.rand) ∨
        cfg.map (fun x => x.req) = config_reqs (gen_serial e.rand) ++ [lock_req]) ∧
      (rr ≠ 0 → (main e).err_level = EXIT_FAILURE)) ∧
    (codes (main e).trace).count 0x10 = 1 ∧
    (reset_req.bRequest = 0x10 ∧ hostToDevice reset_req = true ∧ reset_req.data = [] ∧
      reset_req.wLength = 0) ∧
    (∀ (T : Transport) (s : State),
      issued s (reset T s) = [⟨reset_req, (T s.trace reset_req).ret⟩] ∧
      ((T s.trace reset_req).ret ≠ 0 → (reset T s).err_level = EXIT_FAILURE)) := by
  obtain ⟨r1, r2, r3, r4, r5, r6, r7, rl, rr, ht, he⟩ := main_shape e h
  have hg : (e.transport [] blank_req).ret = 2 ∧ (e.transport [] blank_req).buf 0 = 0xFF ∧
      (e.transport [] blank_req).buf 1 = 0xFF ∧ (toChar e.getc = 89 ∨ toChar e.getc = 121) :=
    ⟨hb.1, hb.2.1, hb.2.2, hc⟩
  rw [if_pos hg, hb.1] at ht
  rw [if_pos hb.1, if_pos hg.2] at he
  refine ⟨⟨[⟨usb_cfg_req, r1⟩, ⟨mfg_str1_req, r2⟩, ⟨mfg_str2_req, r3⟩,
      ⟨prd_str1_req, r4⟩, ⟨prd_str2_req, r5⟩, ⟨ser_str_req (gen_serial e.rand), r6⟩,
      ⟨pin_cfg_req, r7⟩] ++
      (if r1 = 10 ∧ r2 = 64 ∧ r3 = 64 ∧ r4 = 64 ∧ r5 = 64 ∧ r6 = 64 ∧ r7 = 20 then
        [⟨lock_req, rl⟩] else []), rr, ht, ?_, ?_⟩, ?_, ⟨rfl, rfl, rfl, rfl⟩, ?_⟩
  · split
    · right; rfl
    · left; rfl
  · intro h0
    rw [he, if_neg (fun hh => h0 hh.2.2)]
  · rw [ht]
    split
    · rfl
    · rfl
  · intro T s
    rw [reset_eq]
    refine ⟨issued_of_trace (checked_trace T _ _ s), fun h0 => ?_⟩
    rw [checked_err_level, wLength_reset]
    exact if_neg h0

/-- Witness for C9: a blank claimed device, the operator answering Y, every
write and the lock succeeding and the reset failing with -7: the reset is the
tenth and last transfer and the exit status is 1. -/
theorem C9_witness :
    Claimed (claimed_env failed_reset_transport 89) ∧
    (main (claimed_env failed_reset_transport 89)).trace.map (fun x => (x.req.bRequest, x.ret)) =
      [(0x6E, 2), (0x61, 10), (0x63, 64), (0x65, 64), (0x67, 64), (0x69, 64), (0x6B, 64),
        (0x6D, 20), (0x6F, 2), (0x10, -7)] ∧
    (codes (main (claimed_env failed_reset_transport 89)).trace).count 0x10 = 1 ∧
    (main (claimed_env failed_reset_transport 89)).err_level = EXIT_FAILURE :=
  have hc : Claimed (claimed_env failed_reset_transport 89) := ⟨by decide, rfl, rfl, rfl⟩
  ⟨hc, by decide,
    (C9_reset_after_configuration (claimed_env failed_reset_transport 89) hc ⟨rfl, rfl, rfl⟩
      (Or.inl (by decide))).2.1, by decide⟩

end Itusb2Conf
